import Mathlib

/-!
# Verification of the qmate `ui5.userInteraction` / `ui5.control` layer

Shallow embedding, in Lean 4, of the `UserInteraction` class
(`src/reuse/modules/ui5/userInteraction.ts`, shipped inside the repository
README bundle) and the `Control` class (`src/reuse/modules/ui5/control.ts`)
of the wdio-qmate-service repository, together with proofs about them.

External collaborators (the browser driver session `browser`, the selector
resolution subsystem `ui5.element`, `nonUi5.element`, `common.userInteraction`,
`util.console`) are modelled as oracle fields of an `Env` record; every
operation of the layer is embedded as a function from `Env` and its JavaScript
arguments to the list of driver/logging primitives it performs (`Event`s)
together with its outcome (`Except` for a thrown error, `Unit` for normal
return).  JavaScript values are modelled by the inductive `JSX` below; numbers
are rationals plus `NaN` (`JSNum`), which is exact for every numeric literal
and comparison the embedded code performs.
-/

namespace Qmate

/-- A JavaScript number: either `NaN` or an exact rational value.
(The embedded code performs no arithmetic that can overflow a double
or produce infinities, so rationals plus `NaN` are a faithful model here.) -/
inductive JSNum where
  | nan : JSNum
  | val : ℚ → JSNum
deriving DecidableEq, Repr

/-- Numeric truthiness of JavaScript: `NaN` and `0` are falsy, every other
number is truthy.  This is the test performed by `x || y` on a number `x`. -/
def JSNum.truthy : JSNum → Bool
  | .nan => false
  | .val q => q != 0

/-- JavaScript values, restricted to the fragment the embedded code handles:
numbers, strings, booleans, `null`, `undefined`, and objects given as
association lists of fields (selectors are such objects). -/
inductive JSX where
  | num : JSNum → JSX
  | str : String → JSX
  | boolean : Bool → JSX
  | nul : JSX
  | undefined : JSX
  | obj : List (String × JSX) → JSX
deriving Repr

/-- The result of JavaScript `typeof` on a `JSX` value. -/
def JSX.typeof : JSX → String
  | .num _ => "number"
  | .str _ => "string"
  | .boolean _ => "boolean"
  | .nul => "object"
  | .undefined => "undefined"
  | .obj _ => "object"

/-- JavaScript property access `o.k` on the object fragment: looks the key up
in the field list, yielding `undefined` for a missing field.  (The embedded
code only dereferences values that are in fact objects.) -/
def JSX.get (o : JSX) (k : String) : JSX :=
  match o with
  | .obj fields =>
    match fields.lookup k with
    | some v => v
    | none => .undefined
  | _ => .undefined

/-- JavaScript `ToNumber` on strings, for the decimal fragment:
the trimmed string must consist of an optional sign and decimal digits with an
optional fractional part; the empty (all-whitespace) string converts to `0`;
anything else converts to `NaN`.  (Hexadecimal and exponent forms never occur
in the values the embedded code compares.) -/
def digitsToNat (cs : List Char) : ℕ :=
  cs.foldl (fun acc c => acc * 10 + (c.toNat - 48)) 0

/-- Parse an unsigned decimal `digits[.digits]` (at least one digit overall)
from an exact character list, returning its rational value. -/
def parseUnsignedAll (cs : List Char) : Option ℚ :=
  let intPart := cs.takeWhile Char.isDigit
  let rest := cs.dropWhile Char.isDigit
  match rest with
  | [] => if intPart.isEmpty then none else some (digitsToNat intPart : ℚ)
  | '.' :: fracPart =>
    if fracPart.all Char.isDigit ∧ ¬(intPart.isEmpty ∧ fracPart.isEmpty) then
      some ((digitsToNat intPart : ℚ) + (digitsToNat fracPart : ℚ) / ((10 : ℚ) ^ fracPart.length))
    else none
  | _ => none

/-- `ToNumber` of a string (decimal fragment, see `parseUnsignedAll`). -/
def toNumber (s : String) : JSNum :=
  let cs := s.toList.dropWhile Char.isWhitespace |>.reverse.dropWhile Char.isWhitespace |>.reverse
  match cs with
  | [] => .val 0
  | '+' :: rest => match parseUnsignedAll rest with
    | some q => .val q
    | none => .nan
  | '-' :: rest => match parseUnsignedAll rest with
    | some q => .val (-q)
    | none => .nan
  | _ => match parseUnsignedAll cs with
    | some q => .val q
    | none => .nan

/-- Parse the longest unsigned decimal `digits[.digits]` PREFIX of a character
list (`parseFloat` semantics: trailing garbage is ignored). -/
def parseUnsignedLeading (cs : List Char) : Option ℚ :=
  let intPart := cs.takeWhile Char.isDigit
  let rest := cs.dropWhile Char.isDigit
  match rest with
  | '.' :: afterDot =>
    let fracPart := afterDot.takeWhile Char.isDigit
    if intPart.isEmpty ∧ fracPart.isEmpty then none
    else some ((digitsToNat intPart : ℚ) + (digitsToNat fracPart : ℚ) / ((10 : ℚ) ^ fracPart.length))
  | _ => if intPart.isEmpty then none else some (digitsToNat intPart : ℚ)

/-- JavaScript `parseFloat` (decimal fragment): skip leading whitespace, read
an optional sign and the longest numeric prefix; `NaN` when no digit starts
the prefix.  (`Infinity` and exponent forms never occur in the timeout
strings this code parses.) -/
def jsParseFloat (s : String) : JSNum :=
  let cs := s.toList.dropWhile Char.isWhitespace
  match cs with
  | '+' :: rest => match parseUnsignedLeading rest with
    | some q => .val q
    | none => .nan
  | '-' :: rest => match parseUnsignedLeading rest with
    | some q => .val (-q)
    | none => .nan
  | _ => match parseUnsignedLeading cs with
    | some q => .val q
    | none => .nan

/-- JavaScript loose equality `==`, on the primitive fragment
(numbers, strings, booleans, `null`, `undefined`).  Objects are compared by
reference in JavaScript; the embedded code never compares an object loosely,
so `obj` here is never loosely equal to anything. -/
def eqNum : JSNum → JSNum → Bool
  | .val p, .val q => p == q
  | _, _ => false

/-- The number a boolean coerces to under `==`. -/
def boolToNum (b : Bool) : JSNum := .val (if b then 1 else 0)

def looseEq (a b : JSX) : Bool :=
  match a, b with
  | .num m, .num n => eqNum m n
  | .str s, .str t => s == t
  | .boolean a, .boolean b => a == b
  | .nul, .nul => true
  | .undefined, .undefined => true
  | .nul, .undefined => true
  | .undefined, .nul => true
  | .num m, .str t => eqNum m (toNumber t)
  | .str s, .num n => eqNum (toNumber s) n
  | .boolean a, .num n => eqNum (boolToNum a) n
  | .num m, .boolean b => eqNum m (boolToNum b)
  | .boolean a, .str t => eqNum (boolToNum a) (toNumber t)
  | .str s, .boolean b => eqNum (toNumber s) (boolToNum b)
  | _, _ => false

/-- JavaScript strict equality `===` against a string literal. -/
def strictEqStr (a : JSX) (s : String) : Bool :=
  match a with
  | .str t => t == s
  | _ => false

-- ===== constants (src/reuse/modules/constants) =====
-- `GLOBAL_DEFAULT_WAIT_TIMEOUT` is 30000 ms and `GLOBAL_DEFAULT_WAIT_INTERVAL`
-- the default polling interval, per the JSDoc defaults `[timeout=30000]`.

def GLOBAL_DEFAULT_WAIT_TIMEOUT : ℚ := 30000

/--
The default-timeout expression that every operation with an optional timeout
parameter uses:
`timeout = parseFloat(process.env.QMATE_CUSTOM_TIMEOUT!) || GLOBAL_DEFAULT_WAIT_TIMEOUT`.
`envVar` is the value of the environment variable `QMATE_CUSTOM_TIMEOUT`
(`none` when unset; `parseFloat(undefined)` coerces `undefined` to the string
"undefined" and yields `NaN`).
-/
def defaultTimeout (envVar : Option String) : JSNum :=
  let p := match envVar with
    | some s => jsParseFloat s
    | none => jsParseFloat "undefined"
  if p.truthy then p else .val GLOBAL_DEFAULT_WAIT_TIMEOUT

/-- General JavaScript truthiness on the modelled fragment. -/
def JSX.truthy : JSX → Bool
  | .num n => n.truthy
  | .str s => s != ""
  | .boolean b => b
  | .nul => false
  | .undefined => false
  | .obj _ => true

def JSX.isUndefined : JSX → Bool
  | .undefined => true
  | _ => false

/-- Rendering of a number in a template literal.  (JavaScript prints
non-integral doubles in decimal; the embedded code only ever prints integral
timeouts divided by 1000, where this rendering agrees.) -/
def renderNum : JSNum → String
  | .nan => "NaN"
  | .val q => if q.den = 1 then toString q.num else toString q.num ++ "/" ++ toString q.den

/-- Rendering of a value in a template literal. -/
def jsToString : JSX → String
  | .num n => renderNum n
  | .str s => s
  | .boolean b => if b then "true" else "false"
  | .nul => "null"
  | .undefined => "undefined"
  | .obj _ => "[object Object]"

def divNum : JSNum → ℚ → JSNum
  | .nan, _ => .nan
  | .val q, d => .val (q / d)

/-- A single-quote character as a string (used in CSS id queries and error
messages built by the embedded code). -/
def sq : String := String.singleton (Char.ofNat 39)

/-- `ns` begins the list `hs`. -/
def leadsList : List Char → List Char → Bool
  | [], _ => true
  | _ :: _, [] => false
  | a :: as, b :: bs => a == b && leadsList as bs

/-- `needle` occurs as a substring of `hay` (JavaScript `String.includes`). -/
def containsSub (hay needle : String) : Bool :=
  (List.range (hay.toList.length + 1)).any fun i => leadsList needle.toList (hay.toList.drop i)

-- ===== element handles, driver primitives, environment =====

/-- Element handles are opaque references; we model them by a numeric id. -/
abbrev Elem := ℕ

/-- The driver/logging primitives an operation can perform, in order. -/
inductive Event where
  | clickPrim (e : Elem)                      -- `elem.click()`
  | doubleClickPrim (e : Elem)                -- `elem.doubleClick()`
  | rightClickPrim (e : Elem)                 -- `elem.click({button: "right"})`
  | setValuePrim (e : Elem) (v : JSX)         -- `elem.setValue(value)`
  | scrollIntoViewPrim (e : Elem) (opts : JSX) -- `elem.scrollIntoView(options)`
  | moveToPrim (e : Elem)                     -- `elem.moveTo()`
  | getByCss (css : String)                   -- `nonUi5.element.getByCss(css, ...)`
  | fillActive (v : JSX)                      -- `common.userInteraction.fillActive(value)`
  | pressKeys (keys : List String)            -- `common.userInteraction.pressKey([...])`
  | pressBackspace                            -- `common.userInteraction.pressBackspace()`
  | execClearScript (id : String)             -- the in-browser clearing script of `_clearHelper`
  | execFocusScript (id : String)             -- the in-browser focus script of `Control.focus`
  | firePress (e : Elem)                      -- `ui5.control.execute` attachPress/firePress
  | logException (msg : String)               -- `ErrorHandler.logException(error)`
  | verboseLog (msg : String)                 -- `vl.log(...)`
  | consoleInfo (msg : String)                -- `util.console.info(...)`
  | attemptStart (n : ℕ)                      -- `util.function.retry` begins attempt `n`
  | waitDelay (ms : ℚ)                        -- the fixed delay between retry attempts
deriving Repr

/-- Outcome of one embedded operation: the primitives it performed, and either
normal return or the message of the error it threw. -/
abbrev Res := List Event × Except String Unit

/--
The external collaborators of the layer, as response oracles:
the selector resolution subsystem (`ui5.element.*`, `nonUi5.element.getByCss`),
the driver session (`browser.waitUntil` polling, element primitives which may
throw), the in-browser scripts, and the `QMATE_CUSTOM_TIMEOUT` environment
variable.  A `none` in a `...Fail` field means the primitive succeeds; a
`some msg` means it throws with message `msg`.
-/
structure Env where
  /-- `ui5.element.getDisplayed(selector, index, timeout)` as polled from a
  `browser.waitUntil` condition: poll step ↦ found element, or `none` for a
  falsy result at that step. -/
  displayedAt : JSX → ℕ → JSNum → ℕ → Option Elem
  /-- `elem.isClickable()` when queried at a poll step. -/
  clickableAt : Elem → ℕ → Bool
  /-- how many polls `browser.waitUntil` fits into a given timeout. -/
  budget : JSNum → ℕ
  /-- whether the direct `elem.click()` throws. -/
  clickFail : Elem → Option String
  doubleClickFail : Elem → Option String
  rightClickFail : Elem → Option String
  moveToFail : Elem → Option String
  setValueFail : Elem → Option String
  /-- a one-shot `ui5.element.getDisplayed(selector[, index[, timeout]])`
  outside any wait loop (throws "No visible elements..." when unresolvable). -/
  getDisplayed : JSX → ℕ → Option JSNum → Except String Elem
  /-- `ui5.element.getPropertyValue(selector, propertyName, index, timeout)` -/
  getPropertyValue : JSX → String → ℕ → JSNum → Except String JSX
  /-- `ui5.element.getId(selector, index[, timeout])` -/
  getId : JSX → ℕ → Option JSNum → Except String String
  /-- `nonUi5.element.getByCss(css, ...)` -/
  byCss : String → Except String Elem
  /-- `ui5.element.getValue(selector, index, timeout)` -/
  getValue : JSX → ℕ → JSNum → JSX
  /-- `ui5.element.getInnerAttribute(elem, attributeName)` -/
  getInnerAttribute : Elem → String → JSX
  /-- `elem.getAttribute(name)` -/
  getAttribute : Elem → String → String
  /-- `ui5.control.getProperty(elem, propertyName)` -/
  controlGetProperty : Elem → String → JSX
  /-- number of `.sapMTokenizer` nodes found by the clearing script of
  `_clearHelper` under the element with the given id. -/
  tokenizersCount : String → ℕ
  /-- whether the in-browser focus script of `Control.focus` returns true. -/
  focusScriptSucceeds : String → Bool
  /-- `browser.getActiveElement()` -/
  activeElement : Elem
  /-- the value of the environment variable `QMATE_CUSTOM_TIMEOUT`. -/
  qmateCustomTimeout : Option String

-- ===== ErrorHandler (spec-modelled) =====

/-- Modelled from the spec: `ErrorHandler.logException` (defined in
`src/reuse/helper/errorHandler`, which is outside the excerpted sources).
Per the spec it is "a logging/exception helper (`ErrorHandler.logException`)
that records and re-raises": we model it as emitting a `logException` event
and re-raising the message. -/
def logExceptionRes (msg : String) : Res := ([.logException msg], .error msg)

-- ===== UserInteraction.click / doubleClick / rightClick =====

/-- The `timeoutMsg` of the `waitUntil` in `click`/`doubleClick`/`rightClick`:
"Element not clickable after ${+timeout / 1000}s". -/
def timeoutMsg (timeout : JSNum) : String :=
  "Element not clickable after " ++ renderNum (divNum timeout 1000) ++ "s"

/-- The `browser.waitUntil` loop shared by `click`, `doubleClick` and
`rightClick`: poll `ui5.element.getDisplayed(selector, index, timeout)`; a
falsy result makes the condition false, otherwise the condition is
`elem.isClickable()`.  Returns the element captured by the closure at the
first successful poll within the budget, `none` on timeout. -/
def findClickable (env : Env) (sel : JSX) (index : ℕ) (timeout : JSNum) : Option Elem :=
  (List.range (env.budget timeout)).findSome? fun k =>
    match env.displayedAt sel index timeout k with
    | some e => if env.clickableAt e k then some e else none
    | none => none

/-- `UserInteraction.click(selector, index, timeout)`. -/
def click (env : Env) (sel : JSX) (index : ℕ) (timeout : JSNum) : Res :=
  match findClickable env sel index timeout with
  | none => ([], .error (timeoutMsg timeout))
  | some e =>
    match env.clickFail e with
    | none => ([.clickPrim e], .ok ())
    | some err => ([.clickPrim e, .logException err], .error err)

/-- `UserInteraction.doubleClick(selector, index, timeout)`. -/
def doubleClick (env : Env) (sel : JSX) (index : ℕ) (timeout : JSNum) : Res :=
  match findClickable env sel index timeout with
  | none => ([], .error (timeoutMsg timeout))
  | some e =>
    match env.doubleClickFail e with
    | none => ([.doubleClickPrim e], .ok ())
    | some err => ([.doubleClickPrim e, .logException err], .error err)

/-- `UserInteraction.rightClick(selector, index, timeout)`. -/
def rightClick (env : Env) (sel : JSX) (index : ℕ) (timeout : JSNum) : Res :=
  match findClickable env sel index timeout with
  | none => ([], .error (timeoutMsg timeout))
  | some e =>
    match env.rightClickFail e with
    | none => ([.rightClickPrim e], .ok ())
    | some err => ([.rightClickPrim e, .logException err], .error err)

-- ===== UserInteraction.check / uncheck =====

/-- `UserInteraction.check(selector, index, timeout)`: read the `"selected"`
property; click only when it is falsy.  The `try` block wraps the property
read AND the click; a caught error is forwarded to
`ErrorHandler.logException`. -/
def check (env : Env) (sel : JSX) (index : ℕ) (timeout : JSNum) : Res :=
  match env.getPropertyValue sel "selected" index timeout with
  | .error e => ([.logException e], .error e)
  | .ok isSelected =>
    if !isSelected.truthy then
      match click env sel index timeout with
      | (tr, .ok ()) => (tr, .ok ())
      | (tr, .error e) => (tr ++ [.logException e], .error e)
    else ([.verboseLog "Checkbox already checked."], .ok ())

/-- `UserInteraction.uncheck(selector, index, timeout)`: read the `"selected"`
property; click only when it is truthy. -/
def uncheck (env : Env) (sel : JSX) (index : ℕ) (timeout : JSNum) : Res :=
  match env.getPropertyValue sel "selected" index timeout with
  | .error e => ([.logException e], .error e)
  | .ok isSelected =>
    if isSelected.truthy then
      match click env sel index timeout with
      | (tr, .ok ()) => (tr, .ok ())
      | (tr, .error e) => (tr ++ [.logException e], .error e)
    else ([.verboseLog "Checkbox already unchecked."], .ok ())

-- ===== UserInteraction.fill =====

def fillTypeErrMsg : String :=
  "Please provide an element and value(datatype - number/string) as arguments."

/-- `UserInteraction.fill(selector, value, index, timeout)`: accepts only
string/number values; branches on `selector.elementProperties.metadata ===
"sap.m.TextArea"` to decide between a `textarea` and an `input` CSS query. -/
def fill (env : Env) (sel : JSX) (value : JSX) (index : ℕ) (timeout : JSNum) : Res :=
  if value.typeof == "string" || value.typeof == "number" then
    match env.getId sel index (some timeout) with
    | .error e => ([], .error e)
    | .ok id =>
      let css :=
        if strictEqStr ((sel.get "elementProperties").get "metadata") "sap.m.TextArea" then
          "[id=" ++ sq ++ id ++ sq ++ "] textarea"
        else
          "[id=" ++ sq ++ id ++ sq ++ "] input"
      match env.byCss css with
      | .error e => ([.getByCss css], .error e)
      | .ok e =>
        match env.setValueFail e with
        | none => ([.getByCss css, .setValuePrim e value], .ok ())
        | some err => ([.getByCss css, .setValuePrim e value], .error err)
  else
    logExceptionRes fillTypeErrMsg

-- ===== UserInteraction.selectAll, _clearHelper, clear, clearAndFill =====

/-- `UserInteraction.selectAll(selector, index, timeout)`: click the element
when a selector was given, then press ctrl+a. -/
def selectAll (env : Env) (sel : JSX) (index : ℕ) (timeout : JSNum) : Res :=
  if sel.isUndefined then
    ([.consoleInfo "Selector properties are undefined. Action will be performed on current element.",
      .pressKeys ["\uE051", "a"]], .ok ())
  else
    match click env sel index timeout with
    | (tr, .ok ()) => (tr ++ [.pressKeys ["\uE051", "a"]], .ok ())
    | (tr, .error e) => (tr, .error e)

/-- `UserInteraction._clearHelper(selector, index, timeout)`: click the
element (when a selector was given), find its id, run the in-browser clearing
script (empties the first input/textarea under the id), and when the script
found tokenizers additionally select-all and press backspace.
The selector-less branch queries the active element for its id instead. -/
def clearHelper (env : Env) (sel : JSX) (index : ℕ) (timeout : JSNum) : Res :=
  if sel.truthy then
    match click env sel index timeout with
    | (tr, .error e) => (tr, .error e)
    | (tr, .ok ()) =>
      match env.getId sel index (some timeout) with
      | .error e => (tr, .error e)
      | .ok id =>
        let tr := tr ++ [.execClearScript id]
        if env.tokenizersCount id ≠ 0 then
          match selectAll env sel index timeout with
          | (tr2, .ok ()) => (tr ++ tr2 ++ [.pressBackspace], .ok ())
          | (tr2, .error e) => (tr ++ tr2, .error e)
        else (tr, .ok ())
  else
    -- no selector: click the active element and read its id attribute
    let e := env.activeElement
    match env.clickFail e with
    | some err => ([Event.clickPrim e], .error err)
    | none =>
      let id := env.getAttribute e "id"
      let tr := [Event.clickPrim e, Event.execClearScript id]
      if env.tokenizersCount id ≠ 0 then
        match selectAll env sel index timeout with
        | (tr2, .ok ()) => (tr ++ tr2 ++ [.pressBackspace], .ok ())
        | (tr2, .error e) => (tr ++ tr2, .error e)
      else (tr, .ok ())

/-- `UserInteraction.clear(selector, index, timeout)` delegates to
`_clearHelper`. -/
def clear (env : Env) (sel : JSX) (index : ℕ) (timeout : JSNum) : Res :=
  clearHelper env sel index timeout

def clearFillTypeErrMsg : String :=
  "Please provide a value(datatype - number/string) as second parameter."

/-- `UserInteraction.clearAndFill(selector, value, index, timeout)`: accepts
number/string/boolean values; clears, then fills the active element. -/
def clearAndFill (env : Env) (sel : JSX) (value : JSX) (index : ℕ) (timeout : JSNum) : Res :=
  if value.typeof == "number" || value.typeof == "string" || value.typeof == "boolean" then
    match clear env sel index timeout with
    | (tr, .error e) => (tr, .error e)
    | (tr, .ok ()) => (tr ++ [.fillActive value], .ok ())
  else
    logExceptionRes clearFillTypeErrMsg

-- ===== util.function.retry (spec-modelled) and the retry wrappers =====

/-- Modelled from the spec: the generic retry helper
`util.function.retry(fn, args, retries, interval, context)` lives in the
repository's `util` module, outside the excerpted sources.  Per the spec it is
"a five-line utility: call a function with given arguments; on failure, wait
`interval` and retry, up to `retries` times, rethrowing ... the last error".
`attempt n` re-runs the whole wrapped operation from scratch as attempt number
`n` (the attempt number lets distinct attempts observe a changed browser
state); the trace marks each attempt with `attemptStart` and each fixed
inter-attempt delay with `waitDelay interval`. -/
def retryFrom (attempt : ℕ → Res) (interval : ℚ) : ℕ → ℕ → Res
  | n, 0 =>
    let r := attempt n
    (.attemptStart n :: r.1, r.2)
  | n, fuel + 1 =>
    match attempt n with
    | (tr, .ok ()) => (.attemptStart n :: tr, .ok ())
    | (tr, .error _) =>
      let rest := retryFrom attempt interval (n + 1) fuel
      (.attemptStart n :: tr ++ .waitDelay interval :: rest.1, rest.2)

/-- Modelled from the spec: `util.function.retry` proper (see `retryFrom`);
`retries` is the number of re-attempts after the first call. -/
def retry (attempt : ℕ → Res) (retries : ℕ) (interval : ℚ) : Res :=
  retryFrom attempt interval 0 retries

/-- The JSDoc default `[retries=3]` of every `...AndRetry` function. -/
def DEFAULT_RETRIES : ℕ := 3

/-- The JSDoc default `[interval=5000]` of every `...AndRetry` function. -/
def DEFAULT_RETRY_INTERVAL : ℚ := 5000

/-- `UserInteraction.clickAndRetry(selector, index, timeout, retries, interval)`:
`util.function.retry(this.click, [selector, index, timeout], retries, interval, this)`. -/
def clickAndRetry (envs : ℕ → Env) (sel : JSX) (index : ℕ) (timeout : JSNum)
    (retries : ℕ) (interval : ℚ) : Res :=
  retry (fun n => click (envs n) sel index timeout) retries interval

/-- `UserInteraction.fillAndRetry(selector, value, index, timeout, retries, interval)`. -/
def fillAndRetry (envs : ℕ → Env) (sel : JSX) (value : JSX) (index : ℕ) (timeout : JSNum)
    (retries : ℕ) (interval : ℚ) : Res :=
  retry (fun n => fill (envs n) sel value index timeout) retries interval

/-- `UserInteraction.clearAndRetry(selector, index, timeout, retries, interval)`. -/
def clearAndRetry (envs : ℕ → Env) (sel : JSX) (index : ℕ) (timeout : JSNum)
    (retries : ℕ) (interval : ℚ) : Res :=
  retry (fun n => clear (envs n) sel index timeout) retries interval

-- ===== UserInteraction.clearAndFillAndRetry =====

/-- The verification error of `clearAndFillAndRetry`:
"Actual value '${elemValue}' not equal to expected value '${value}'". -/
def mismatchMsg (actual expected : JSX) : String :=
  "Actual value " ++ sq ++ jsToString actual ++ sq ++
    " not equal to expected value " ++ sq ++ jsToString expected ++ sq

/-- One attempt of `clearAndFillAndRetry`: clear-and-fill, then (when `verify`)
accept when `ui5.element.getValue` loosely equals (`!=` is JavaScript loose
inequality) the given value, or failing that when the `"data-value"` inner
attribute does; otherwise throw the mismatch error. -/
def clearAndFillAndRetryAttempt (env : Env) (sel : JSX) (value : JSX) (index : ℕ)
    (timeout : JSNum) (verify : Bool) : Res :=
  match clearAndFill env sel value index timeout with
  | (tr, .error e) => (tr, .error e)
  | (tr, .ok ()) =>
    if verify then
      match env.getDisplayed sel index (some timeout) with
      | .error e => (tr, .error e)
      | .ok elem =>
        let elemValue := env.getValue sel index timeout
        if looseEq elemValue value then (tr, .ok ())
        else
          let elemValue2 := env.getInnerAttribute elem ("data-" ++ "value")
          if looseEq elemValue2 value then (tr, .ok ())
          else (tr, .error (mismatchMsg elemValue2 value))
    else (tr, .ok ())

/-- `UserInteraction.clearAndFillAndRetry(selector, value, index, timeout,
retries, interval, verify)`. -/
def clearAndFillAndRetry (envs : ℕ → Env) (sel : JSX) (value : JSX) (index : ℕ)
    (timeout : JSNum) (retries : ℕ) (interval : ℚ) (verify : Bool) : Res :=
  retry (fun n => clearAndFillAndRetryAttempt (envs n) sel value index timeout verify)
    retries interval

-- ===== UserInteraction.clearAndFillSmartFieldInput (+AndRetry) =====

/-- `UserInteraction.clearAndFillSmartFieldInput(selector, value, index, timeout)`:
find the input by CSS over the resolved id, click it, select-all, set the value. -/
def clearAndFillSmartFieldInput (env : Env) (sel : JSX) (value : JSX) (index : ℕ)
    (timeout : JSNum) : Res :=
  match env.getId sel index (some timeout) with
  | .error e => ([], .error e)
  | .ok id =>
    let css := "input[id*=" ++ sq ++ id ++ sq ++ "]"
    match env.byCss css with
    | .error e => ([.getByCss css], .error e)
    | .ok elem =>
      match env.clickFail elem with
      | some err => ([.getByCss css, .clickPrim elem], .error err)
      | none =>
        match selectAll env sel index timeout with
        | (tr, .error e) => ([.getByCss css, .clickPrim elem] ++ tr, .error e)
        | (tr, .ok ()) =>
          match env.setValueFail elem with
          | none => ([.getByCss css, .clickPrim elem] ++ tr ++ [.setValuePrim elem value], .ok ())
          | some err => ([.getByCss css, .clickPrim elem] ++ tr ++ [.setValuePrim elem value], .error err)

/-- `UserInteraction.clearAndFillSmartFieldInputAndRetry(...)`. -/
def clearAndFillSmartFieldInputAndRetry (envs : ℕ → Env) (sel : JSX) (value : JSX)
    (index : ℕ) (timeout : JSNum) (retries : ℕ) (interval : ℚ) : Res :=
  retry (fun n => clearAndFillSmartFieldInput (envs n) sel value index timeout) retries interval

-- ===== UserInteraction.scrollToElement, mouseOverElement =====

/-- `UserInteraction.scrollToElement(selector, index, alignment, timeout)`:
resolve, build the alignment options (a string alignment is used for both
`block` and `inline`), scroll into view.  (`ui5.element.getDisplayed` throws
when nothing is visible, so the `if (elem)` guard of the source is passed
whenever resolution returned.) -/
def scrollToElement (env : Env) (sel : JSX) (index : ℕ) (alignment : JSX)
    (timeout : JSNum) : Res :=
  match env.getDisplayed sel index (some timeout) with
  | .error e => ([], .error e)
  | .ok elem =>
    let options :=
      if alignment.typeof == "string" then
        JSX.obj [("block", alignment), ("inline", alignment)]
      else if alignment.typeof == "object" then alignment
      else JSX.obj []
    ([.scrollIntoViewPrim elem options], .ok ())

/-- The message of `mouseOverElement`'s catch branch:
"No element found for selector ${selector}" (a selector object renders as
"[object Object]" in a template literal). -/
def noElementMsg (sel : JSX) : String :=
  "No element found for selector " ++ jsToString sel

/-- `UserInteraction.mouseOverElement(selector, index, timeout)`: the
resolution step is inside `try`/`catch` (its failure is forwarded to
`ErrorHandler.logException`); the final `elem.moveTo()` is NOT. -/
def mouseOverElement (env : Env) (sel : JSX) (index : ℕ) (timeout : JSNum) : Res :=
  match env.getDisplayed sel index (some timeout) with
  | .error _ => logExceptionRes (noElementMsg sel)
  | .ok elem =>
    match env.moveToFail elem with
    | none => ([.moveToPrim elem], .ok ())
    | some err => ([.moveToPrim elem], .error err)

-- ===== UserInteraction select family =====

/-- `UserInteraction.clickSelectArrow(selector, index)`: resolve the id, find
`[id='<id>-arrow']` by CSS, click that arrow element directly. -/
def clickSelectArrow (env : Env) (sel : JSX) (index : ℕ) : Res :=
  match env.getId sel index none with
  | .error e => ([], .error e)
  | .ok id =>
    let css := "[id=" ++ sq ++ id ++ "-arrow" ++ sq ++ "]"
    match env.byCss css with
    | .error e => ([.getByCss css], .error e)
    | .ok arrow =>
      match env.clickFail arrow with
      | none => ([.getByCss css, .clickPrim arrow], .ok ())
      | some err => ([.getByCss css, .clickPrim arrow], .error err)

/-- `UserInteraction.clickSelectArrowAndRetry(selector, index, retries, interval)`. -/
def clickSelectArrowAndRetry (envs : ℕ → Env) (sel : JSX) (index : ℕ)
    (retries : ℕ) (interval : ℚ) : Res :=
  retry (fun n => clickSelectArrow (envs n) sel index) retries interval

def selectBoxErrMsg : String := "Please provide a value as second argument."

/-- The child-item selector `selectBox` composes:
`{ elementProperties: { mProperties: { text: value },
ancestorProperties: selector.elementProperties } }`. -/
def selectBoxItemSelector (sel : JSX) (value : JSX) : JSX :=
  .obj [("elementProperties", .obj [
    ("mProperties", .obj [("text", value)]),
    ("ancestorProperties", sel.get "elementProperties")])]

/-- `UserInteraction.selectBox(selector, value, index)`: click the select
arrow FIRST; then, when the value is neither undefined nor null, compose the
child-item selector, scroll it into view and click it; otherwise log an
error.  The composed calls use the defaulted parameters of
`scrollToElement` (index 0, alignment "center") and `click` (index 0), with
the environment-driven default timeout. -/
def selectBox (env : Env) (sel : JSX) (value : JSX) (index : ℕ) : Res :=
  match clickSelectArrow env sel index with
  | (tr, .error e) => (tr, .error e)
  | (tr, .ok ()) =>
    match value with
    | .undefined => (tr ++ (logExceptionRes selectBoxErrMsg).1, (logExceptionRes selectBoxErrMsg).2)
    | .nul => (tr ++ (logExceptionRes selectBoxErrMsg).1, (logExceptionRes selectBoxErrMsg).2)
    | v =>
      let itemSelector := selectBoxItemSelector sel v
      let t := defaultTimeout env.qmateCustomTimeout
      match scrollToElement env itemSelector 0 (.str "center") t with
      | (tr2, .error e) => (tr ++ tr2, .error e)
      | (tr2, .ok ()) =>
        let r := click env itemSelector 0 t
        (tr ++ tr2 ++ r.1, r.2)

-- ===== UserInteraction tab operations =====

/-- The two selected-tab indicator classes of `_verifyTabSwitch`
(old and new UI5 versions). -/
def indicatorClasses : List String := ["sapUxAPAnchorBarButtonSelected", "sapMITBSelected"]

/-- The parent selector `_verifyTabSwitch` composes for the
multiple-value tab type. -/
def tabParentSelectorOf (sel : JSX) (textValue : JSX) : JSX :=
  .obj [("elementProperties", .obj [
    ("metadata", .str "sap.m.MenuButton"),
    ("text", textValue),
    ("descendentProperties", sel)])]

/-- `UserInteraction._verifyTabSwitch(selector)`: the tab (or, failing that,
its composed MenuButton parent) must carry one of the indicator classes. -/
def verifyTabSwitch (env : Env) (sel : JSX) : Except String Bool :=
  match env.getDisplayed sel 0 none with
  | .error e => .error e
  | .ok tabElem =>
    let tabClassList := env.getAttribute tabElem "class"
    if indicatorClasses.any (fun c => containsSub tabClassList c) then .ok true
    else
      let textValue := env.controlGetProperty tabElem "text"
      match env.getDisplayed (tabParentSelectorOf sel textValue) 0 (some (.val 5000)) with
      | .error e => .error e
      | .ok parentElem =>
        let parentClassList := env.getAttribute parentElem "class"
        .ok (indicatorClasses.any (fun c => containsSub parentClassList c))

def tabSwitchErrMsg : String := "Could not verify successful tab switch."

/-- One attempt of `clickTab`: click, then verify the tab switch; an
unsuccessful verification is forwarded to `ErrorHandler.logException`. -/
def clickTabAttempt (env : Env) (sel : JSX) (index : ℕ) (timeout : JSNum) : Res :=
  match click env sel index timeout with
  | (tr, .error e) => (tr, .error e)
  | (tr, .ok ()) =>
    match verifyTabSwitch env sel with
    | .error e => (tr, .error e)
    | .ok true => (tr, .ok ())
    | .ok false => (tr ++ [.logException tabSwitchErrMsg], .error tabSwitchErrMsg)

/-- `UserInteraction.clickTab(selector, index, timeout)`: the attempt is
wrapped in `util.function.retry(..., 3, 5000, this)` — the retry count and
interval are hardcoded literals, not parameters. -/
def clickTab (envs : ℕ → Env) (sel : JSX) (index : ℕ) (timeout : JSNum) : Res :=
  retry (fun n => clickTabAttempt (envs n) sel index timeout) 3 5000

/-- The arrow-icon selector `selectFromTab` composes from the tab selector. -/
def tabArrowSelectorOf (sel : JSX) : JSX :=
  .obj [("elementProperties", .obj [
    ("viewName", (sel.get "elementProperties").get "viewName"),
    ("metadata", .str "sap.ui.core.Icon"),
    ("src", .str "sap-icon://slim-arrow-down")]),
    ("ancestorProperties", sel)]

/-- The old-UI5 menu-item selector `selectFromTab` composes. -/
def tabMenuItemSelectorOld (sel : JSX) (value : JSX) : JSX :=
  .obj [("elementProperties", .obj [
    ("viewName", (sel.get "elementProperties").get "viewName"),
    ("metadata", .str "sap.ui.unified.MenuItem"),
    ("text", value)])]

/-- The new-UI5 menu-item selector `selectFromTab` composes. -/
def tabMenuItemSelectorNew (sel : JSX) (value : JSX) : JSX :=
  .obj [("elementProperties", .obj [
    ("viewName", (sel.get "elementProperties").get "viewName"),
    ("metadata", .str "sap.m.IconTabFilter"),
    ("text", value)])]

def menuItemTimeoutMsg (timeout : JSNum) : String :=
  "Menu Item not clickable after " ++ renderNum (divNum timeout 1000) ++ "s"

/-- The inner `browser.waitUntil` of `selectFromTab`: at each poll, race
(`Promise.any`) a click on the new-UI5 and on the old-UI5 menu-item selector
with a 500 ms timeout each, ignoring errors; the condition is true as soon as
either click resolves.  (The race is sequentialised here, new-UI5 selector
first; `inner k` is the environment the two 500 ms clicks observe at poll
`k`.)  Returns the trace of the successful poll, or `none` on timeout. -/
def waitMenuItemClick (env : Env) (inner : ℕ → Env) (menuNew menuOld : JSX)
    (timeout : JSNum) : Option (List Event) :=
  (List.range (env.budget timeout)).findSome? fun k =>
    match click (inner k) menuNew 0 (.val 500) with
    | (tr, .ok ()) => some tr
    | (tr1, .error _) =>
      match click (inner k) menuOld 0 (.val 500) with
      | (tr2, .ok ()) => some (tr1 ++ tr2)
      | (_, .error _) => none

/-- One attempt of `selectFromTab`: click the composed arrow icon, wait until
one of the two composed menu-item selectors becomes clickable and is clicked,
then verify the tab switch. -/
def selectFromTabAttempt (env : Env) (inner : ℕ → Env) (sel : JSX) (value : JSX)
    (index : ℕ) (timeout : JSNum) : Res :=
  match click env (tabArrowSelectorOf sel) index timeout with
  | (tr, .error e) => (tr, .error e)
  | (tr, .ok ()) =>
    match waitMenuItemClick env inner (tabMenuItemSelectorNew sel value)
        (tabMenuItemSelectorOld sel value) timeout with
    | none => (tr, .error (menuItemTimeoutMsg timeout))
    | some tr2 =>
      match verifyTabSwitch env sel with
      | .error e => (tr ++ tr2, .error e)
      | .ok true => (tr ++ tr2, .ok ())
      | .ok false => (tr ++ tr2 ++ [.logException tabSwitchErrMsg], .error tabSwitchErrMsg)

/-- `UserInteraction.selectFromTab(selector, value, index, timeout)`: the
attempt is wrapped in `util.function.retry(..., 3, 5000, this)` — the retry
count and interval are hardcoded literals. -/
def selectFromTab (envs : ℕ → Env) (inners : ℕ → ℕ → Env) (sel : JSX) (value : JSX)
    (index : ℕ) (timeout : JSNum) : Res :=
  retry (fun n => selectFromTabAttempt (envs n) (inners n) sel value index timeout) 3 5000

-- ===== Control.focus =====

/-- `Control.focus(selector, index, timeout)`: resolve, read the id, run the
in-browser focus script; when the script reports failure fall back to
`scrollToElement` (that fallback call is not awaited in the source, so its
outcome never propagates). -/
def focus (env : Env) (sel : JSX) (index : ℕ) (timeout : JSNum) : Res :=
  match env.getDisplayed sel index (some timeout) with
  | .error e => ([], .error e)
  | .ok elem =>
    let id := env.getAttribute elem "id"
    if env.focusScriptSucceeds id then ([.execFocusScript id], .ok ())
    else
      let r := scrollToElement env sel index (.str "center") timeout
      ([.execFocusScript id] ++ r.1, .ok ())

-- ===== Control.getProperty (delegation) =====

/-- `Control.getProperty(selectorOrElement, propertyName)` delegates to
`locatorCommands.getUI5Property(propertyName, selectorOrElement)`; we model
the delegation target as an oracle. -/
def controlGetPropertyOp (oracle : String → JSX → JSX) (selectorOrElement : JSX)
    (propertyName : String) : JSX :=
  oracle propertyName selectorOrElement

-- ===== instance state (for the frame property) =====

/-- The instance state of `UserInteraction`: the fields initialised in the
class body (`private vlf = new VerboseLoggerFactory("ui5", "click")`,
`private ErrorHandler = new ErrorHandler()`); the two objects are modelled by
their constructor arguments / an opaque id. -/
structure UserInteractionState where
  vlfOwner : String
  vlfName : String
  errorHandlerId : ℕ
deriving DecidableEq, Repr

def initUserInteractionState : UserInteractionState := ⟨"ui5", "click", 0⟩

/-- The instance state of `Control`: `private vlf = new
VerboseLoggerFactory("ui5", "control")` and the two required libraries. -/
structure ControlState where
  vlfOwner : String
  vlfName : String
  libId : ℕ
  locatorCommandsId : ℕ
deriving DecidableEq, Repr

def initControlState : ControlState := ⟨"ui5", "control", 0, 0⟩

/-- A `UserInteraction` method invocation with its instance state threaded
explicitly: the method reads `this.vlf` / `this.ErrorHandler` but contains no
assignment to any instance field, so the state passes through unchanged while
the method's behaviour is produced from locals only. -/
def runUI (st : UserInteractionState) (r : Res) : UserInteractionState × Res := (st, r)

/-- A `Control` method invocation with its instance state threaded
explicitly (no `Control` method assigns to an instance field either). -/
def runControl (st : ControlState) (r : Res) : ControlState × Res := (st, r)

-- ===== trace projections =====

/-- The driver click primitives of a trace (clicks, double clicks,
right clicks), with their target elements. -/
def clickTargetsOf (tr : List Event) : List Elem :=
  tr.filterMap fun ev => match ev with
    | .clickPrim e => some e
    | .doubleClickPrim e => some e
    | .rightClickPrim e => some e
    | _ => none

/-- Whether a trace performs any driver click primitive. -/
def hasClickPrim (tr : List Event) : Bool :=
  tr.any fun ev => match ev with
    | .clickPrim _ => true
    | .doubleClickPrim _ => true
    | .rightClickPrim _ => true
    | _ => false

/-- The `logException` messages of a trace. -/
def loggedOf (tr : List Event) : List String :=
  tr.filterMap fun ev => match ev with
    | .logException m => some m
    | _ => none

/-- The `moveTo` primitives of a trace. -/
def moveTosOf (tr : List Event) : List Elem :=
  tr.filterMap fun ev => match ev with
    | .moveToPrim e => some e
    | _ => none

/-- The CSS queries of a trace. -/
def cssOf (tr : List Event) : List String :=
  tr.filterMap fun ev => match ev with
    | .getByCss c => some c
    | _ => none

/-- The `setValue` primitives of a trace. -/
def setValuesOf (tr : List Event) : List (Elem × JSX) :=
  tr.filterMap fun ev => match ev with
    | .setValuePrim e v => some (e, v)
    | _ => none

/-- The `fillActive` values of a trace. -/
def fillActivesOf (tr : List Event) : List JSX :=
  tr.filterMap fun ev => match ev with
    | .fillActive v => some v
    | _ => none

/-- The inter-attempt delays of a trace. -/
def delaysOf (tr : List Event) : List ℚ :=
  tr.filterMap fun ev => match ev with
    | .waitDelay q => some q
    | _ => none

/-- The number of retry attempts a trace contains. -/
def attemptsOf (tr : List Event) : ℕ :=
  tr.countP fun ev => match ev with
    | .attemptStart _ => true
    | _ => false

/-- A trace free of the retry bookkeeping events (`attemptStart`/`waitDelay`):
the traces of all non-retry operations are plain. -/
def plainTrace (tr : List Event) : Bool :=
  tr.all fun ev => match ev with
    | .attemptStart _ => false
    | .waitDelay _ => false
    | _ => true

-- ===== concrete test environments =====

/-- A concrete environment in which every query succeeds in the simplest way;
the basis of the concrete environments used to instantiate the theorems. -/
def baseEnv : Env where
  displayedAt := fun _ _ _ _ => some 1
  clickableAt := fun _ _ => true
  budget := fun _ => 1
  clickFail := fun _ => none
  doubleClickFail := fun _ => none
  rightClickFail := fun _ => none
  moveToFail := fun _ => none
  setValueFail := fun _ => none
  getDisplayed := fun _ _ _ => .ok 1
  getPropertyValue := fun _ _ _ _ => .ok (.boolean false)
  getId := fun _ _ _ => .ok "id0"
  byCss := fun _ => .ok 2
  getValue := fun _ _ _ => .str "v"
  getInnerAttribute := fun _ _ => .str "v"
  getAttribute := fun _ _ => "sapMITBSelected"
  controlGetProperty := fun _ _ => .str "t"
  tokenizersCount := fun _ => 0
  focusScriptSucceeds := fun _ => true
  activeElement := 0
  qmateCustomTimeout := none

/-- An environment in which no element ever becomes visible/clickable. -/
def envNoElem : Env :=
  { baseEnv with
    displayedAt := fun _ _ _ _ => none
    getDisplayed := fun _ _ _ => .error "No visible elements found" }

/-- A concrete selector, as in the repository's own test specs. -/
def selW : JSX :=
  .obj [("elementProperties", .obj [
    ("viewName", .str "sap.m.sample.DialogMessage.V"),
    ("metadata", .str "sap.m.Button"),
    ("text", .str "Message Dialog (Error)")])]

-- ===== further definitions used by the theorems =====

/-- `value !== undefined && value !== null` (negated). -/
def isNullish : JSX → Bool
  | .undefined => true
  | .nul => true
  | _ => false

/-- The scroll options a string alignment "center" expands to. -/
def centerOptions : JSX := .obj [("block", .str "center"), ("inline", .str "center")]

/-- An environment describing a single checkbox whose `"selected"` property
reads `s`; everything else as in `baseEnv` (the checkbox is displayed and
clickable, clicks succeed). -/
def checkboxEnv (s : Bool) : Env :=
  { baseEnv with getPropertyValue := fun _ _ _ _ => .ok (.boolean s) }

/-- A concrete checkbox selector. -/
def chkSel : JSX := .obj [("elementProperties", .obj [("metadata", .str "sap.m.CheckBox")])]

/-- The checkbox state after a run: on a checkbox whose `"selected"` property
reflects its checked state, a driver click toggles it, and a run that
performs no click leaves it unchanged. -/
def afterCheckboxRun (s : Bool) (tr : List Event) : Bool :=
  if hasClickPrim tr then !s else s

/-- The calls of the embedded `UserInteraction` API, for running a sequence
of operations against one environment with the instance state threaded. -/
inductive UICall where
  | cClick (sel : JSX) (index : ℕ) (timeout : JSNum)
  | cDoubleClick (sel : JSX) (index : ℕ) (timeout : JSNum)
  | cRightClick (sel : JSX) (index : ℕ) (timeout : JSNum)
  | cCheck (sel : JSX) (index : ℕ) (timeout : JSNum)
  | cUncheck (sel : JSX) (index : ℕ) (timeout : JSNum)
  | cFill (sel value : JSX) (index : ℕ) (timeout : JSNum)
  | cClear (sel : JSX) (index : ℕ) (timeout : JSNum)
  | cClearAndFill (sel value : JSX) (index : ℕ) (timeout : JSNum)
  | cSelectBox (sel value : JSX) (index : ℕ)
  | cMouseOver (sel : JSX) (index : ℕ) (timeout : JSNum)
  | cScrollTo (sel : JSX) (index : ℕ) (alignment : JSX) (timeout : JSNum)

/-- Dispatch one `UserInteraction` method with the instance state threaded
explicitly: each method reads `this.vlf` / `this.ErrorHandler` but contains
no assignment to an instance field, and the element handles it acts on live
in locals of the call, so the state passes through. -/
def runUICall (env : Env) (st : UserInteractionState) : UICall → UserInteractionState × Res
  | .cClick sel i t => (st, click env sel i t)
  | .cDoubleClick sel i t => (st, doubleClick env sel i t)
  | .cRightClick sel i t => (st, rightClick env sel i t)
  | .cCheck sel i t => (st, check env sel i t)
  | .cUncheck sel i t => (st, uncheck env sel i t)
  | .cFill sel v i t => (st, fill env sel v i t)
  | .cClear sel i t => (st, clear env sel i t)
  | .cClearAndFill sel v i t => (st, clearAndFill env sel v i t)
  | .cSelectBox sel v i => (st, selectBox env sel v i)
  | .cMouseOver sel i t => (st, mouseOverElement env sel i t)
  | .cScrollTo sel i a t => (st, scrollToElement env sel i a t)

/-- Run a sequence of `UserInteraction` calls, threading the instance state
from call to call and collecting the results. -/
def runUISession (env : Env) (st : UserInteractionState) :
    List UICall → UserInteractionState × List Res
  | [] => (st, [])
  | c :: cs =>
    match runUICall env st c with
    | (st1, r) =>
      match runUISession env st1 cs with
      | (st2, rs) => (st2, r :: rs)

/-- `Control.focus` with the `Control` instance state threaded explicitly
(the method reads `this.vlf` only). -/
def runControlFocus (env : Env) (st : ControlState) (sel : JSX) (index : ℕ)
    (timeout : JSNum) : ControlState × Res :=
  (st, focus env sel index timeout)

-- ===== helper lemmas about the waitUntil loop =====

theorem findClickable_eq_none_iff (env : Env) (sel : JSX) (index : ℕ) (timeout : JSNum) :
    findClickable env sel index timeout = none ↔
      ∀ k < env.budget timeout, ∀ e,
        env.displayedAt sel index timeout k = some e → env.clickableAt e k = false := by
  unfold findClickable
  rw [List.findSome?_eq_none_iff]
  constructor
  · intro h k hk e he
    have hm := h k (List.mem_range.mpr hk)
    simp only [he] at hm
    cases hcl : env.clickableAt e k with
    | false => rfl
    | true => simp [hcl] at hm
  · intro h k hk
    rcases hd : env.displayedAt sel index timeout k with _ | e
    · simp [hd]
    · simp [hd, h k (List.mem_range.mp hk) e hd]

theorem findClickable_eq_some (env : Env) (sel : JSX) (index : ℕ) (timeout : JSNum)
    (e : Elem) (h : findClickable env sel index timeout = some e) :
    ∃ k, k < env.budget timeout ∧
      env.displayedAt sel index timeout k = some e ∧ env.clickableAt e k = true := by
  unfold findClickable at h
  obtain ⟨k, hk, hf⟩ := List.exists_of_findSome?_eq_some h
  refine ⟨k, List.mem_range.mp hk, ?_⟩
  rcases hd : env.displayedAt sel index timeout k with _ | e'
  · simp [hd] at hf
  · simp only [hd] at hf
    cases hcl : env.clickableAt e' k with
    | false => simp [hcl] at hf
    | true =>
      simp only [hcl, if_true, Option.some.injEq] at hf
      exact ⟨by rw [hf], hf ▸ hcl⟩

-- ===== C1 =====

/-- C1: `ui5.userInteraction.click(selector, index, timeout)` first waits, up
to the timeout's poll budget, for `ui5.element.getDisplayed` to resolve the
selector to an element that reports `isClickable`.  When no poll within the
budget finds a clickable element, the wait fails with the timeout error and no
driver click primitive is performed; when one does, the resolved element is a
genuine displayed-and-clickable response of the resolution subsystem and the
operation performs exactly one driver click primitive, on that element. -/
theorem click_waits_for_clickable_then_clicks_once (env : Env) (sel : JSX)
    (index : ℕ) (timeout : JSNum) :
    ((∀ k < env.budget timeout, ∀ e,
        env.displayedAt sel index timeout k = some e → env.clickableAt e k = false) →
      click env sel index timeout = ([], .error (timeoutMsg timeout))) ∧
    (∀ e, findClickable env sel index timeout = some e →
      (∃ k, k < env.budget timeout ∧
        env.displayedAt sel index timeout k = some e ∧ env.clickableAt e k = true) ∧
      clickTargetsOf (click env sel index timeout).1 = [e]) := by
  constructor
  · intro h
    have hn : findClickable env sel index timeout = none :=
      (findClickable_eq_none_iff env sel index timeout).mpr h
    unfold click
    rw [hn]
  · intro e he
    refine ⟨findClickable_eq_some env sel index timeout e he, ?_⟩
    simp only [click, he]
    rcases hc : env.clickFail e with _ | err <;> simp [hc, clickTargetsOf]

/-- Witness for C1: in a concrete environment where nothing ever becomes
clickable, `click` fails with the timeout error and performs nothing; in one
where element 1 is displayed and clickable, exactly element 1 is clicked. -/
theorem click_waits_for_clickable_then_clicks_once_witness :
    click envNoElem selW 0 (.val 30000) = ([], .error (timeoutMsg (.val 30000))) ∧
    clickTargetsOf (click baseEnv selW 0 (.val 30000)).1 = [1] :=
  ⟨(click_waits_for_clickable_then_clicks_once envNoElem selW 0 (.val 30000)).1
      (fun _ _ _ he => Option.noConfusion he),
   ((click_waits_for_clickable_then_clicks_once baseEnv selW 0 (.val 30000)).2 1 rfl).2⟩

-- ===== C2 =====

/-- C2 counterexample: the claim says no operation catches failures from any
step other than the final primitive action; but `mouseOverElement` catches a
failure of the element-RESOLUTION step and forwards it to
`ErrorHandler.logException` — its final primitive `moveTo` is never even
reached (and the raised error is not a wait-until timeout of this
operation; the operation has no wait-until of its own). -/
theorem mouseOverElement_catches_resolution_failure :
    mouseOverElement envNoElem selW 0 (.val 30000)
      = ([.logException (noElementMsg selW)], .error (noElementMsg selW)) ∧
    moveTosOf (mouseOverElement envNoElem selW 0 (.val 30000)).1 = [] ∧
    loggedOf (mouseOverElement envNoElem selW 0 (.val 30000)).1 = [noElementMsg selW] :=
  ⟨rfl, rfl, rfl⟩

/-- C2 (amended): every failure either propagates as the wait-until timeout
or is caught and forwarded to `ErrorHandler.logException` — but the catch
site varies by operation.  `click` catches only the final primitive: its
error is either the timeout message with an empty trace and nothing logged,
or the final click primitive's error, logged and re-raised.  `check` catches
the property-READ step as well and forwards its failure.  `mouseOverElement`
catches the RESOLUTION step and forwards its failure, while a failure of its
final primitive `moveTo` propagates with nothing logged. -/
theorem failure_paths_by_operation (env : Env) (sel : JSX) (index : ℕ) (timeout : JSNum) :
    (∀ err, (click env sel index timeout).2 = .error err →
      (err = timeoutMsg timeout ∧ click env sel index timeout = ([], .error err)) ∨
      (∃ e, env.clickFail e = some err ∧
        click env sel index timeout = ([.clickPrim e, .logException err], .error err))) ∧
    (∀ err, env.getPropertyValue sel "selected" index timeout = .error err →
      check env sel index timeout = ([.logException err], .error err)) ∧
    (∀ err, env.getDisplayed sel index (some timeout) = .error err →
      mouseOverElement env sel index timeout
        = ([.logException (noElementMsg sel)], .error (noElementMsg sel))) ∧
    (∀ e err, env.getDisplayed sel index (some timeout) = .ok e →
      env.moveToFail e = some err →
      mouseOverElement env sel index timeout = ([.moveToPrim e], .error err) ∧
      loggedOf [Event.moveToPrim e] = []) := by
  refine ⟨?_, ?_, ?_, ?_⟩
  · intro err herr
    rcases hf : findClickable env sel index timeout with _ | e
    · simp only [click, hf, Except.error.injEq] at herr
      exact Or.inl ⟨herr.symm, by simp [click, hf, herr]⟩
    · rcases hc : env.clickFail e with _ | msg
      · simp [click, hf, hc] at herr
      · simp only [click, hf, hc, Except.error.injEq] at herr
        subst herr
        exact Or.inr ⟨e, hc, by simp [click, hf, hc]⟩
  · intro err herr
    unfold check
    rw [herr]
  · intro err herr
    unfold mouseOverElement
    rw [herr]
    rfl
  · intro e err he herr
    simp [mouseOverElement, he, herr, loggedOf]

/-- Witness for the amended C2, at concrete environments: a failing property
read in `check` is caught and forwarded; a failing final `moveTo` in
`mouseOverElement` propagates un-logged. -/
theorem failure_paths_by_operation_witness :
    check { baseEnv with getPropertyValue := fun _ _ _ _ => .error "read failed" }
        selW 0 (.val 30000)
      = ([.logException "read failed"], .error "read failed") ∧
    mouseOverElement { baseEnv with moveToFail := fun _ => some "moveTo failed" }
        selW 0 (.val 30000)
      = ([.moveToPrim 1], .error "moveTo failed") :=
  ⟨(failure_paths_by_operation
      { baseEnv with getPropertyValue := fun _ _ _ _ => .error "read failed" }
      selW 0 (.val 30000)).2.1 "read failed" rfl,
   ((failure_paths_by_operation
      { baseEnv with moveToFail := fun _ => some "moveTo failed" }
      selW 0 (.val 30000)).2.2.2 1 "moveTo failed" rfl rfl).1⟩

-- ===== C3 =====

def selTextArea : JSX := .obj [("elementProperties", .obj [("metadata", .str "sap.m.TextArea")])]

def selInputBox : JSX := .obj [("elementProperties", .obj [("metadata", .str "sap.m.Input")])]

/-- C3 counterexample: `fill`'s behaviour DOES branch on the contents of the
selector's fields: in one fixed environment whose oracle responses ignore the
selector entirely, two selectors differing only in
`elementProperties.metadata` make `fill` issue different driver queries (a
`textarea` CSS query versus an `input` CSS query), so the two runs differ. -/
theorem fill_branches_on_selector_metadata :
    cssOf (fill baseEnv selTextArea (.str "x") 0 (.val 30000)).1
      = ["[id=" ++ sq ++ "id0" ++ sq ++ "] textarea"] ∧
    cssOf (fill baseEnv selInputBox (.str "x") 0 (.val 30000)).1
      = ["[id=" ++ sq ++ "id0" ++ sq ++ "] input"] ∧
    fill baseEnv selTextArea (.str "x") 0 (.val 30000)
      ≠ fill baseEnv selInputBox (.str "x") 0 (.val 30000) := by
  have h1 : cssOf (fill baseEnv selTextArea (.str "x") 0 (.val 30000)).1
      = ["[id=" ++ sq ++ "id0" ++ sq ++ "] textarea"] := rfl
  have h2 : cssOf (fill baseEnv selInputBox (.str "x") 0 (.val 30000)).1
      = ["[id=" ++ sq ++ "id0" ++ sq ++ "] input"] := rfl
  refine ⟨h1, h2, fun h => ?_⟩
  have h3 := congrArg (fun r => cssOf r.1) h
  simp only at h3
  rw [h1, h2] at h3
  exact absurd h3 (by decide)

/-- C3 (amended): apart from `fill`, selectors are treated opaquely — e.g.
`click`'s behaviour depends on its selector only through the resolution
subsystem's responses, so two selectors the environment answers identically
are indistinguishable; `fill` is the exception: its CSS query targets a
`textarea` exactly when the selector's `elementProperties.metadata` field
strictly equals "sap.m.TextArea", and an `input` otherwise. -/
theorem selector_opaque_except_fill_metadata_branch :
    (∀ env sel sel' index timeout,
      (∀ k, env.displayedAt sel index timeout k = env.displayedAt sel' index timeout k) →
      click env sel index timeout = click env sel' index timeout) ∧
    (∀ (env : Env) sel value index timeout id,
      (value.typeof == "string" || value.typeof == "number") = true →
      env.getId sel index (some timeout) = .ok id →
      cssOf (fill env sel value index timeout).1 =
        [if strictEqStr ((sel.get "elementProperties").get "metadata") "sap.m.TextArea"
         then "[id=" ++ sq ++ id ++ sq ++ "] textarea"
         else "[id=" ++ sq ++ id ++ sq ++ "] input"]) := by
  constructor
  · intro env sel sel' index timeout h
    have hfc : findClickable env sel index timeout = findClickable env sel' index timeout := by
      unfold findClickable
      congr 1
      funext k
      rw [h k]
    unfold click
    rw [hfc]
  · intro env sel value index timeout id hty hid
    cases hmb : strictEqStr ((sel.get "elementProperties").get "metadata") "sap.m.TextArea" with
    | true =>
      simp only [fill, hty, if_true, hid, hmb]
      rcases hb : env.byCss ("[id=" ++ sq ++ id ++ sq ++ "] textarea") with e | e
      · simp [hb, cssOf]
      · rcases hs : env.setValueFail e with _ | err <;> simp [hb, hs, cssOf]
    | false =>
      simp only [fill, hty, if_true, hid, hmb, Bool.false_eq_true, if_false]
      rcases hb : env.byCss ("[id=" ++ sq ++ id ++ sq ++ "] input") with e | e
      · simp [hb, cssOf]
      · rcases hs : env.setValueFail e with _ | err <;> simp [hb, hs, cssOf]

/-- Witness for the amended C3: with the base environment (whose responses
ignore the selector), `click` on two different selectors coincides, and
`fill` on the TextArea selector issues the `textarea` query. -/
theorem selector_opaque_except_fill_metadata_branch_witness :
    click baseEnv selTextArea 0 (.val 30000) = click baseEnv selInputBox 0 (.val 30000) ∧
    cssOf (fill baseEnv selTextArea (.str "x") 0 (.val 30000)).1
      = [if strictEqStr ((selTextArea.get "elementProperties").get "metadata") "sap.m.TextArea"
         then "[id=" ++ sq ++ "id0" ++ sq ++ "] textarea"
         else "[id=" ++ sq ++ "id0" ++ sq ++ "] input"] :=
  ⟨(selector_opaque_except_fill_metadata_branch).1 baseEnv selTextArea selInputBox 0
      (.val 30000) (fun _ => rfl),
   (selector_opaque_except_fill_metadata_branch).2 baseEnv selTextArea (.str "x") 0
      (.val 30000) "id0" rfl rfl⟩

-- ===== helper lemmas about traces and the retry helper =====

theorem delaysOf_append (a b : List Event) : delaysOf (a ++ b) = delaysOf a ++ delaysOf b :=
  List.filterMap_append a b _

theorem attemptsOf_append (a b : List Event) : attemptsOf (a ++ b) = attemptsOf a + attemptsOf b :=
  List.countP_append _ _ _

theorem plainTrace_append (a b : List Event) :
    plainTrace (a ++ b) = (plainTrace a && plainTrace b) :=
  List.all_append

theorem plainTrace_no_retry_events (tr : List Event) (h : plainTrace tr = true) :
    delaysOf tr = [] ∧ attemptsOf tr = 0 := by
  induction tr with
  | nil => exact ⟨rfl, rfl⟩
  | cons ev tl ih =>
    rw [plainTrace, List.all_cons, Bool.and_eq_true] at h
    obtain ⟨h1, h2⟩ := h
    obtain ⟨ihd, iha⟩ := ih h2
    cases ev <;> simp_all [delaysOf, attemptsOf, List.filterMap_cons, List.countP_cons]

theorem plain_click (env : Env) (sel : JSX) (index : ℕ) (timeout : JSNum) :
    plainTrace (click env sel index timeout).1 = true := by
  rcases hf : findClickable env sel index timeout with _ | e
  · simp [click, hf, plainTrace]
  · rcases hc : env.clickFail e with _ | err <;> simp [click, hf, hc, plainTrace]

theorem plain_fill (env : Env) (sel value : JSX) (index : ℕ) (timeout : JSNum) :
    plainTrace (fill env sel value index timeout).1 = true := by
  cases hty : (value.typeof == "string" || value.typeof == "number")
  · simp [fill, hty, logExceptionRes, plainTrace]
  · simp only [fill, hty, if_true]
    rcases hid : env.getId sel index (some timeout) with e | id
    · simp [plainTrace]
    · simp only []
      generalize (if strictEqStr ((sel.get "elementProperties").get "metadata")
            "sap.m.TextArea" = true then
          "[id=" ++ sq ++ id ++ sq ++ "] textarea"
        else "[id=" ++ sq ++ id ++ sq ++ "] input") = css
      rcases hb : env.byCss css with e | el
      · simp only [hb]
        rfl
      · rcases hs : env.setValueFail el with _ | err <;> simp only [hb, hs] <;> rfl

theorem plain_selectAll (env : Env) (sel : JSX) (index : ℕ) (timeout : JSNum) :
    plainTrace (selectAll env sel index timeout).1 = true := by
  cases hu : sel.isUndefined
  · rcases hc : click env sel index timeout with ⟨tr, r⟩
    have hp : plainTrace tr = true := by
      have h := plain_click env sel index timeout
      rw [hc] at h
      exact h
    rcases r with e | ⟨⟩
    · simp only [selectAll, hu, Bool.false_eq_true, if_false, hc]
      exact hp
    · simp only [selectAll, hu, Bool.false_eq_true, if_false, hc]
      simp only [plainTrace_append, hp]
      rfl
  · simp [selectAll, hu, plainTrace]

theorem plain_clearHelper (env : Env) (sel : JSX) (index : ℕ) (timeout : JSNum) :
    plainTrace (clearHelper env sel index timeout).1 = true := by
  cases htr : sel.truthy
  · simp only [clearHelper, htr, Bool.false_eq_true, if_false]
    rcases hc : env.clickFail env.activeElement with _ | err
    · simp only [hc]
      by_cases htk : env.tokenizersCount (env.getAttribute env.activeElement "id") ≠ 0
      · rw [if_pos htk]
        rcases hs : selectAll env sel index timeout with ⟨tr2, r2⟩
        have hp : plainTrace tr2 = true := by
          have h := plain_selectAll env sel index timeout
          rw [hs] at h
          exact h
        rcases r2 with e | ⟨⟩ <;> simp only [plainTrace_append, hp] <;> rfl
      · rw [if_neg htk]
        rfl
    · simp only [hc]
      rfl
  · simp only [clearHelper, htr, if_true]
    rcases hcl : click env sel index timeout with ⟨tr, r⟩
    have hpc : plainTrace tr = true := by
      have h := plain_click env sel index timeout
      rw [hcl] at h
      exact h
    rcases r with e | ⟨⟩
    · simpa [hcl] using hpc
    · simp only [hcl]
      rcases hid : env.getId sel index (some timeout) with e | id
      · simpa using hpc
      · simp only []
        by_cases htk : env.tokenizersCount id ≠ 0
        · rw [if_pos htk]
          rcases hs : selectAll env sel index timeout with ⟨tr2, r2⟩
          have hps : plainTrace tr2 = true := by
            have h := plain_selectAll env sel index timeout
            rw [hs] at h
            exact h
          rcases r2 with e | ⟨⟩ <;>
            simp only [plainTrace_append, hpc, hps] <;> rfl
        · rw [if_neg htk]
          simp only [plainTrace_append, hpc]
          rfl

theorem plain_clear (env : Env) (sel : JSX) (index : ℕ) (timeout : JSNum) :
    plainTrace (clear env sel index timeout).1 = true :=
  plain_clearHelper env sel index timeout

theorem plain_clearAndFill (env : Env) (sel value : JSX) (index : ℕ) (timeout : JSNum) :
    plainTrace (clearAndFill env sel value index timeout).1 = true := by
  cases hty : (value.typeof == "number" || value.typeof == "string"
      || value.typeof == "boolean")
  · simp [clearAndFill, hty, logExceptionRes, plainTrace]
  · simp only [clearAndFill, hty, if_true]
    rcases hc : clear env sel index timeout with ⟨tr, r⟩
    have hp : plainTrace tr = true := by
      have h := plain_clear env sel index timeout
      rw [hc] at h
      exact h
    rcases r with e | ⟨⟩
    · simpa using hp
    · simp only [plainTrace_append, hp]
      rfl

theorem plain_clearAndFillAndRetryAttempt (env : Env) (sel value : JSX) (index : ℕ)
    (timeout : JSNum) (verify : Bool) :
    plainTrace (clearAndFillAndRetryAttempt env sel value index timeout verify).1 = true := by
  rcases hc : clearAndFill env sel value index timeout with ⟨tr, r⟩
  have hp : plainTrace tr = true := by
    have h := plain_clearAndFill env sel value index timeout
    rw [hc] at h
    exact h
  rcases r with e | ⟨⟩
  · simpa [clearAndFillAndRetryAttempt, hc] using hp
  · simp only [clearAndFillAndRetryAttempt, hc]
    cases verify
    · simpa using hp
    · simp only [if_true]
      rcases hd : env.getDisplayed sel index (some timeout) with e | elem
      · simpa using hp
      · simp only []
        by_cases h1 : looseEq (env.getValue sel index timeout) value = true
        · simp only [h1, if_true]
          simpa using hp
        · simp only [Bool.not_eq_true] at h1
          simp only [h1, Bool.false_eq_true, if_false]
          by_cases h2 : looseEq (env.getInnerAttribute elem ("data-" ++ "value")) value = true
          · simp only [h2, if_true]
            simpa using hp
          · simp only [Bool.not_eq_true] at h2
            simp only [h2, Bool.false_eq_true, if_false]
            simpa using hp

theorem plain_clickSelectArrow (env : Env) (sel : JSX) (index : ℕ) :
    plainTrace (clickSelectArrow env sel index).1 = true := by
  rcases hid : env.getId sel index none with e | id
  · simp [clickSelectArrow, hid, plainTrace]
  · simp only [clickSelectArrow, hid]
    rcases hb : env.byCss ("[id=" ++ sq ++ id ++ "-arrow" ++ sq ++ "]") with e | arrow
    · simp only [hb]
      rfl
    · rcases hc : env.clickFail arrow with _ | err <;> simp only [hb, hc] <;> rfl

theorem plain_clearAndFillSmartFieldInput (env : Env) (sel value : JSX) (index : ℕ)
    (timeout : JSNum) :
    plainTrace (clearAndFillSmartFieldInput env sel value index timeout).1 = true := by
  rcases hid : env.getId sel index (some timeout) with e | id
  · simp [clearAndFillSmartFieldInput, hid, plainTrace]
  · simp only [clearAndFillSmartFieldInput, hid]
    rcases hb : env.byCss ("input[id*=" ++ sq ++ id ++ sq ++ "]") with e | elem
    · simp only [hb]
      rfl
    · simp only [hb]
      rcases hc : env.clickFail elem with _ | err
      · simp only [hc]
        rcases hs : selectAll env sel index timeout with ⟨tr, r⟩
        have hp : plainTrace tr = true := by
          have h := plain_selectAll env sel index timeout
          rw [hs] at h
          exact h
        rcases r with e | ⟨⟩
        · simp only []
          show plainTrace ([Event.getByCss ("input[id*=" ++ sq ++ id ++ sq ++ "]"),
            Event.clickPrim elem] ++ tr) = true
          simp only [plainTrace_append, hp]
          rfl
        · rcases hv : env.setValueFail elem with _ | err <;>
            · simp only [hv]
              show plainTrace ([Event.getByCss ("input[id*=" ++ sq ++ id ++ sq ++ "]"),
                Event.clickPrim elem] ++ (tr ++ [Event.setValuePrim elem value])) = true
              simp only [plainTrace_append, hp]
              rfl
      · simp only [hc]
        rfl

theorem plain_clickTabAttempt (env : Env) (sel : JSX) (index : ℕ) (timeout : JSNum) :
    plainTrace (clickTabAttempt env sel index timeout).1 = true := by
  rcases hcl : click env sel index timeout with ⟨tr, r⟩
  have hpc : plainTrace tr = true := by
    have h := plain_click env sel index timeout
    rw [hcl] at h
    exact h
  rcases r with e | ⟨⟩
  · simpa [clickTabAttempt, hcl] using hpc
  · simp only [clickTabAttempt, hcl]
    rcases hv : verifyTabSwitch env sel with e | b
    · simpa using hpc
    · cases b
      · simp only []
        simp only [plainTrace_append, hpc]
        rfl
      · simpa using hpc

theorem plain_waitMenuItemClick (env : Env) (inner : ℕ → Env) (menuNew menuOld : JSX)
    (timeout : JSNum) (tr : List Event)
    (h : waitMenuItemClick env inner menuNew menuOld timeout = some tr) :
    plainTrace tr = true := by
  unfold waitMenuItemClick at h
  obtain ⟨k, _, hf⟩ := List.exists_of_findSome?_eq_some h
  rcases hN : click (inner k) menuNew 0 (.val 500) with ⟨trN, rN⟩
  have hpN : plainTrace trN = true := by
    have h2 := plain_click (inner k) menuNew 0 (.val 500)
    rw [hN] at h2
    exact h2
  rw [hN] at hf
  rcases rN with e | ⟨⟩
  · simp only [] at hf
    rcases hO : click (inner k) menuOld 0 (.val 500) with ⟨trO, rO⟩
    have hpO : plainTrace trO = true := by
      have h2 := plain_click (inner k) menuOld 0 (.val 500)
      rw [hO] at h2
      exact h2
    rw [hO] at hf
    rcases rO with e2 | ⟨⟩
    · simp at hf
    · simp only [Option.some.injEq] at hf
      subst hf
      simp only [plainTrace_append, hpN, hpO]
      rfl
  · simp only [Option.some.injEq] at hf
    subst hf
    exact hpN

theorem plain_selectFromTabAttempt (env : Env) (inner : ℕ → Env) (sel value : JSX)
    (index : ℕ) (timeout : JSNum) :
    plainTrace (selectFromTabAttempt env inner sel value index timeout).1 = true := by
  rcases hcl : click env (tabArrowSelectorOf sel) index timeout with ⟨tr, r⟩
  have hpc : plainTrace tr = true := by
    have h := plain_click env (tabArrowSelectorOf sel) index timeout
    rw [hcl] at h
    exact h
  rcases r with e | ⟨⟩
  · simpa [selectFromTabAttempt, hcl] using hpc
  · simp only [selectFromTabAttempt, hcl]
    rcases hw : waitMenuItemClick env inner (tabMenuItemSelectorNew sel value)
        (tabMenuItemSelectorOld sel value) timeout with _ | tr2
    · simpa using hpc
    · have hp2 := plain_waitMenuItemClick env inner _ _ _ _ hw
      simp only []
      rcases hv : verifyTabSwitch env sel with e | b
      · simp only [plainTrace_append, hpc, hp2]
        rfl
      · cases b
        · simp only []
          simp only [plainTrace_append, hpc, hp2]
          rfl
        · simp only [plainTrace_append, hpc, hp2]
          rfl

theorem delaysOf_cons_attemptStart (n : ℕ) (tr : List Event) :
    delaysOf (.attemptStart n :: tr) = delaysOf tr := rfl

theorem delaysOf_cons_waitDelay (q : ℚ) (tr : List Event) :
    delaysOf (.waitDelay q :: tr) = q :: delaysOf tr := rfl

theorem attemptsOf_cons_attemptStart (n : ℕ) (tr : List Event) :
    attemptsOf (.attemptStart n :: tr) = attemptsOf tr + 1 := by
  unfold attemptsOf
  rw [List.countP_cons]
  simp

theorem attemptsOf_cons_waitDelay (q : ℚ) (tr : List Event) :
    attemptsOf (.waitDelay q :: tr) = attemptsOf tr := by
  unfold attemptsOf
  rw [List.countP_cons]
  simp

/-- Trace shape of `retryFrom`: the delays of a retry run are exactly one
copy of the fixed `interval` between consecutive attempts (no backoff, no
jitter), and a run makes between 1 and `fuel + 1` attempts. -/
theorem retryFrom_shape (attempt : ℕ → Res) (interval : ℚ)
    (hplain : ∀ n, plainTrace (attempt n).1 = true) :
    ∀ fuel n,
      delaysOf (retryFrom attempt interval n fuel).1
        = List.replicate (attemptsOf (retryFrom attempt interval n fuel).1 - 1) interval ∧
      1 ≤ attemptsOf (retryFrom attempt interval n fuel).1 ∧
      attemptsOf (retryFrom attempt interval n fuel).1 ≤ fuel + 1 := by
  intro fuel
  induction fuel with
  | zero =>
    intro n
    obtain ⟨hd, ha⟩ := plainTrace_no_retry_events (attempt n).1 (hplain n)
    have htr : (retryFrom attempt interval n 0).1 = .attemptStart n :: (attempt n).1 := rfl
    rw [htr, delaysOf_cons_attemptStart, attemptsOf_cons_attemptStart, hd, ha]
    exact ⟨rfl, le_refl 1, le_refl 1⟩
  | succ fuel ih =>
    intro n
    rcases hat : attempt n with ⟨tr, r⟩
    have hd : delaysOf tr = [] := by
      have h := (plainTrace_no_retry_events (attempt n).1 (hplain n)).1
      rw [hat] at h
      exact h
    have ha : attemptsOf tr = 0 := by
      have h := (plainTrace_no_retry_events (attempt n).1 (hplain n)).2
      rw [hat] at h
      exact h
    rcases r with e | ⟨⟩
    · obtain ⟨ihd, iha1, iha2⟩ := ih (n + 1)
      have htr : (retryFrom attempt interval n (fuel + 1)).1
          = Event.attemptStart n
            :: (tr ++ Event.waitDelay interval
                  :: (retryFrom attempt interval (n + 1) fuel).1) := by
        simp only [retryFrom, hat, List.cons_append]
      have hD : delaysOf (retryFrom attempt interval n (fuel + 1)).1
          = interval :: delaysOf (retryFrom attempt interval (n + 1) fuel).1 := by
        rw [htr, delaysOf_cons_attemptStart, delaysOf_append, hd,
          delaysOf_cons_waitDelay]
        rfl
      have hA : attemptsOf (retryFrom attempt interval n (fuel + 1)).1
          = attemptsOf (retryFrom attempt interval (n + 1) fuel).1 + 1 := by
        rw [htr, attemptsOf_cons_attemptStart, attemptsOf_append, ha,
          attemptsOf_cons_waitDelay]
        omega
      refine ⟨?_, ?_, ?_⟩
      · rw [hD, hA, ihd, Nat.add_sub_cancel]
        conv_rhs => rw [show attemptsOf (retryFrom attempt interval (n + 1) fuel).1
            = (attemptsOf (retryFrom attempt interval (n + 1) fuel).1 - 1) + 1
          from (Nat.succ_pred_eq_of_pos iha1).symm]
        rw [List.replicate_succ]
      · rw [hA]; omega
      · rw [hA]; omega
    · have htr : (retryFrom attempt interval n (fuel + 1)).1
          = .attemptStart n :: tr := by
        simp only [retryFrom, hat]
      rw [htr, delaysOf_cons_attemptStart, attemptsOf_cons_attemptStart, hd, ha]
      exact ⟨rfl, le_refl 1, by omega⟩

/-- The trace of a `retryFrom` run begins with the marker of its first
attempt. -/
theorem retryFrom_head (attempt : ℕ → Res) (interval : ℚ) (n fuel : ℕ) :
    ∃ tl, (retryFrom attempt interval n fuel).1 = .attemptStart n :: tl := by
  cases fuel with
  | zero => exact ⟨(attempt n).1, rfl⟩
  | succ fuel =>
    rcases hat : attempt n with ⟨tr, r⟩
    rcases r with e | ⟨⟩
    · refine ⟨tr ++ .waitDelay interval :: (retryFrom attempt interval (n + 1) fuel).1, ?_⟩
      simp only [retryFrom, hat, List.cons_append]
    · refine ⟨tr, ?_⟩
      simp only [retryFrom, hat]

/-- When the first attempt fails and at least one retry remains, the retry
helper starts a second attempt. -/
theorem retry_second_attempt (attempt : ℕ → Res) (retries : ℕ) (interval : ℚ)
    (h0 : (attempt 0).2 ≠ .ok ()) (hr : 1 ≤ retries) :
    Event.attemptStart 1 ∈ (retry attempt retries interval).1 := by
  obtain ⟨fuel, rfl⟩ : ∃ fuel, retries = fuel + 1 := ⟨retries - 1, by omega⟩
  rcases hat : attempt 0 with ⟨tr, r⟩
  rcases r with e | ⟨⟩
  · obtain ⟨tl, htl⟩ := retryFrom_head attempt interval 1 fuel
    have htr : (retry attempt (fuel + 1) interval).1
        = Event.attemptStart 0
          :: (tr ++ Event.waitDelay interval
                :: (retryFrom attempt interval 1 fuel).1) := by
      simp only [retry, retryFrom, hat, List.cons_append]
    rw [htr, htl]
    simp
  · exact absurd (by rw [hat] : (attempt 0).2 = .ok ()) h0

-- ===== C4 =====

/-- C4: every retry wrapper re-attempts the WHOLE operation (its attempt
function is the complete wrapped operation, re-run from scratch), the number
of attempts is at most `retries + 1` with the waits between consecutive
attempts all equal to the fixed `interval` (no backoff, no failure
classification — `retry` never inspects the error), the wrappers' default
parameters are 3 retries and a 5000 ms interval, and `clickTab` and
`selectFromTab` hardcode exactly 3 retries and a 5000 ms delay. -/
theorem retry_wrappers_fixed_count_and_delay :
    (∀ (attempt : ℕ → Res) (retries : ℕ) (interval : ℚ),
      (∀ n, plainTrace (attempt n).1 = true) →
      delaysOf (retry attempt retries interval).1
        = List.replicate (attemptsOf (retry attempt retries interval).1 - 1) interval ∧
      1 ≤ attemptsOf (retry attempt retries interval).1 ∧
      attemptsOf (retry attempt retries interval).1 ≤ retries + 1) ∧
    (∀ envs sel index timeout retries interval,
      clickAndRetry envs sel index timeout retries interval
        = retry (fun n => click (envs n) sel index timeout) retries interval) ∧
    (∀ envs sel value index timeout retries interval,
      fillAndRetry envs sel value index timeout retries interval
        = retry (fun n => fill (envs n) sel value index timeout) retries interval) ∧
    (∀ envs sel index timeout retries interval,
      clearAndRetry envs sel index timeout retries interval
        = retry (fun n => clear (envs n) sel index timeout) retries interval) ∧
    (∀ envs sel value index timeout retries interval verify,
      clearAndFillAndRetry envs sel value index timeout retries interval verify
        = retry (fun n => clearAndFillAndRetryAttempt (envs n) sel value index timeout verify)
            retries interval) ∧
    (∀ envs sel index retries interval,
      clickSelectArrowAndRetry envs sel index retries interval
        = retry (fun n => clickSelectArrow (envs n) sel index) retries interval) ∧
    (∀ envs sel value index timeout retries interval,
      clearAndFillSmartFieldInputAndRetry envs sel value index timeout retries interval
        = retry (fun n => clearAndFillSmartFieldInput (envs n) sel value index timeout)
            retries interval) ∧
    DEFAULT_RETRIES = 3 ∧ DEFAULT_RETRY_INTERVAL = 5000 ∧
    (∀ envs sel index timeout,
      clickTab envs sel index timeout
        = retry (fun n => clickTabAttempt (envs n) sel index timeout) 3 5000 ∧
      delaysOf (clickTab envs sel index timeout).1
        = List.replicate (attemptsOf (clickTab envs sel index timeout).1 - 1) 5000 ∧
      attemptsOf (clickTab envs sel index timeout).1 ≤ 4) ∧
    (∀ envs inners sel value index timeout,
      selectFromTab envs inners sel value index timeout
        = retry (fun n => selectFromTabAttempt (envs n) (inners n) sel value index timeout)
            3 5000 ∧
      delaysOf (selectFromTab envs inners sel value index timeout).1
        = List.replicate (attemptsOf (selectFromTab envs inners sel value index timeout).1 - 1)
            5000 ∧
      attemptsOf (selectFromTab envs inners sel value index timeout).1 ≤ 4) := by
  refine ⟨?_, fun _ _ _ _ _ _ => rfl, fun _ _ _ _ _ _ _ => rfl, fun _ _ _ _ _ _ => rfl,
    fun _ _ _ _ _ _ _ _ => rfl, fun _ _ _ _ _ => rfl, fun _ _ _ _ _ _ _ => rfl,
    rfl, rfl, ?_, ?_⟩
  · intro attempt retries interval hplain
    exact retryFrom_shape attempt interval hplain retries 0
  · intro envs sel index timeout
    have h := retryFrom_shape (fun n => clickTabAttempt (envs n) sel index timeout) 5000
      (fun n => plain_clickTabAttempt (envs n) sel index timeout) 3 0
    exact ⟨rfl, h.1, h.2.2⟩
  · intro envs inners sel value index timeout
    have h := retryFrom_shape
      (fun n => selectFromTabAttempt (envs n) (inners n) sel value index timeout) 5000
      (fun n => plain_selectFromTabAttempt (envs n) (inners n) sel value index timeout) 3 0
    exact ⟨rfl, h.1, h.2.2⟩

/-- Witness for C4: with a concrete always-failing attempt (click in an
environment where nothing becomes clickable), the retry run's delays are
exactly one fixed interval per re-attempt. -/
theorem retry_wrappers_fixed_count_and_delay_witness :
    delaysOf (retry (fun _ => click envNoElem selW 0 (.val 1000)) 3 5000).1
      = List.replicate
          (attemptsOf (retry (fun _ => click envNoElem selW 0 (.val 1000)) 3 5000).1 - 1)
          5000 :=
  (retry_wrappers_fixed_count_and_delay.1 (fun _ => click envNoElem selW 0 (.val 1000)) 3 5000
    (fun _ => plain_click envNoElem selW 0 (.val 1000))).1

-- ===== C5 =====

/-- C5: when the caller omits the timeout, every operation evaluates
`parseFloat(process.env.QMATE_CUSTOM_TIMEOUT!) || GLOBAL_DEFAULT_WAIT_TIMEOUT`
(embedded as `defaultTimeout`): the parsed number is used when it is truthy
(non-zero, non-NaN) and `GLOBAL_DEFAULT_WAIT_TIMEOUT` (30000) otherwise — in
particular when the variable is unset, non-numeric, or "0". -/
theorem default_timeout_from_env_or_global :
    (∀ s, (jsParseFloat s).truthy = true → defaultTimeout (some s) = jsParseFloat s) ∧
    (∀ s, (jsParseFloat s).truthy = false →
      defaultTimeout (some s) = .val GLOBAL_DEFAULT_WAIT_TIMEOUT) ∧
    (∀ s, jsParseFloat s = .nan → defaultTimeout (some s) = .val GLOBAL_DEFAULT_WAIT_TIMEOUT) ∧
    defaultTimeout none = .val 30000 ∧
    defaultTimeout (some "0") = .val 30000 ∧
    defaultTimeout (some "abc") = .val 30000 ∧
    defaultTimeout (some "5000") = .val 5000 := by
  refine ⟨?_, ?_, ?_, by decide, by decide, by decide, by decide⟩
  · intro s h
    simp [defaultTimeout, h]
  · intro s h
    simp [defaultTimeout, h]
  · intro s h
    simp [defaultTimeout, h, JSNum.truthy]

/-- Witness for C5: a truthy parse ("5000") is used verbatim. -/
theorem default_timeout_from_env_or_global_witness :
    defaultTimeout (some "5000") = jsParseFloat "5000" :=
  default_timeout_from_env_or_global.1 "5000" (by decide)

-- ===== C6 =====

/-- C6: one attempt of `clearAndFillAndRetry` with `verify = true` (given the
clear-and-fill part returned and the element resolved) succeeds exactly when
the element's value loosely (`==`) equals the given value or, failing that,
when the element's "data-value" inner attribute loosely equals it; when both
comparisons fail the attempt throws the mismatch error naming the actual and
expected values, and — under the retry wrapper, with retries left — a second
attempt is started. -/
theorem clearAndFillAndRetry_verify_semantics (env : Env) (sel value : JSX)
    (index : ℕ) (timeout : JSNum) (eid : Elem)
    (hcf : (clearAndFill env sel value index timeout).2 = .ok ())
    (helem : env.getDisplayed sel index (some timeout) = .ok eid) :
    ((clearAndFillAndRetryAttempt env sel value index timeout true).2 = .ok () ↔
      (looseEq (env.getValue sel index timeout) value = true ∨
        looseEq (env.getInnerAttribute eid ("data-" ++ "value")) value = true)) ∧
    (looseEq (env.getValue sel index timeout) value = false →
      looseEq (env.getInnerAttribute eid ("data-" ++ "value")) value = false →
      (clearAndFillAndRetryAttempt env sel value index timeout true).2
        = .error (mismatchMsg (env.getInnerAttribute eid ("data-" ++ "value")) value)) ∧
    (∀ retries interval,
      (clearAndFillAndRetryAttempt env sel value index timeout true).2 ≠ .ok () →
      1 ≤ retries →
      Event.attemptStart 1
        ∈ (clearAndFillAndRetry (fun _ => env) sel value index timeout retries interval
            true).1) := by
  rcases hc : clearAndFill env sel value index timeout with ⟨tr, r⟩
  rw [hc] at hcf
  have hr : r = .ok () := hcf
  subst hr
  refine ⟨?_, ?_, ?_⟩
  · simp only [clearAndFillAndRetryAttempt, hc, if_true, helem]
    by_cases h1 : looseEq (env.getValue sel index timeout) value = true
    · simp [h1]
    · simp only [Bool.not_eq_true] at h1
      by_cases h2 : looseEq (env.getInnerAttribute eid "data-value") value = true
      · simp [h1, h2]
      · simp only [Bool.not_eq_true] at h2
        simp [h1, h2]
  · intro h1 h2
    simp only [clearAndFillAndRetryAttempt, hc, if_true, helem, h1, h2,
      Bool.false_eq_true, if_false]
  · intro retries interval hfail hretr
    exact retry_second_attempt
      (fun _ => clearAndFillAndRetryAttempt env sel value index timeout true)
      retries interval hfail hretr

/-- Witness for C6: in the base environment, filling "v" verifies against the
element value "v" and the attempt returns normally. -/
theorem clearAndFillAndRetry_verify_semantics_witness :
    (clearAndFillAndRetryAttempt baseEnv selW (.str "v") 0 (.val 30000) true).2 = .ok () :=
  (clearAndFillAndRetry_verify_semantics baseEnv selW (.str "v") 0 (.val 30000) 1
      rfl rfl).1.mpr (Or.inl (by decide))

-- ===== C7 =====

/-- C7: `selectBox(selector, value, index)` first clicks the select arrow;
then, when the value is neither undefined nor null, it composes a child-item
selector whose `elementProperties.mProperties.text` is the value and whose
`elementProperties.ancestorProperties` are the given selector's
`elementProperties`, scrolls that item into view and clicks it; when the
value IS undefined or null, an error is logged instead and no item click is
performed beyond the arrow click. -/
theorem selectBox_composition_and_order (env : Env) (sel value : JSX) (index : ℕ) :
    ((((selectBoxItemSelector sel value).get "elementProperties").get
        "mProperties").get "text") = value ∧
    ((selectBoxItemSelector sel value).get "elementProperties").get "ancestorProperties"
        = sel.get "elementProperties" ∧
    (∀ trA eItem, isNullish value = false →
      clickSelectArrow env sel index = (trA, .ok ()) →
      env.getDisplayed (selectBoxItemSelector sel value) 0
          (some (defaultTimeout env.qmateCustomTimeout)) = .ok eItem →
      selectBox env sel value index
        = (trA ++ [.scrollIntoViewPrim eItem centerOptions]
              ++ (click env (selectBoxItemSelector sel value) 0
                    (defaultTimeout env.qmateCustomTimeout)).1,
           (click env (selectBoxItemSelector sel value) 0
              (defaultTimeout env.qmateCustomTimeout)).2)) ∧
    (∀ trA, isNullish value = true →
      clickSelectArrow env sel index = (trA, .ok ()) →
      selectBox env sel value index
        = (trA ++ [.logException selectBoxErrMsg], .error selectBoxErrMsg) ∧
      clickTargetsOf (trA ++ [Event.logException selectBoxErrMsg]) = clickTargetsOf trA) := by
  refine ⟨rfl, rfl, ?_, ?_⟩
  · intro trA eItem hnull harrow hdisp
    cases value
    case nul => simp [isNullish] at hnull
    case undefined => simp [isNullish] at hnull
    all_goals
      simp only [selectBox, harrow, scrollToElement, hdisp]
      simp [centerOptions, JSX.typeof]
  · intro trA hnull harrow
    cases value
    case nul =>
      refine ⟨?_, ?_⟩
      · simp [selectBox, harrow, logExceptionRes]
      · simp [clickTargetsOf, List.filterMap_append]
    case undefined =>
      refine ⟨?_, ?_⟩
      · simp [selectBox, harrow, logExceptionRes]
      · simp [clickTargetsOf, List.filterMap_append]
    all_goals simp [isNullish] at hnull

/-- Witness for C7, in the base environment: the arrow is clicked, the
composed item is scrolled into view and clicked, in that order. -/
theorem selectBox_composition_and_order_witness :
    selectBox baseEnv selW (.str "Germany") 0
      = ([.getByCss ("[id=" ++ sq ++ "id0" ++ "-arrow" ++ sq ++ "]"), .clickPrim 2,
          .scrollIntoViewPrim 1 centerOptions, .clickPrim 1], .ok ()) := by
  have h := (selectBox_composition_and_order baseEnv selW (.str "Germany") 0).2.2.1
    [.getByCss ("[id=" ++ sq ++ "id0" ++ "-arrow" ++ sq ++ "]"), .clickPrim 2] 1
    rfl rfl rfl
  simpa using h

-- ===== C8 =====

/-- C8: the instance state of `UserInteraction` (logger factory, error
handler) and of `Control` passes unchanged through every call and every
SEQUENCE of calls — the classes' methods never assign an instance field — and
the element handles the driver primitives act on are acquired within the call
from the resolution subsystem's responses (a clicked element is one the
polled `getDisplayed` returned, a `setValue` target came from the in-call CSS
lookup, a `moveTo` target from the in-call `getDisplayed`), never from
instance state. -/
theorem instance_state_invariant_and_fresh_handles :
    (∀ env st calls, (runUISession env st calls).1 = st) ∧
    (∀ env calls, (runUISession env initUserInteractionState calls).1 = ⟨"ui5", "click", 0⟩) ∧
    (∀ env st sel index timeout, (runControlFocus env st sel index timeout).1 = st) ∧
    (∀ env sel index timeout e, Event.clickPrim e ∈ (click env sel index timeout).1 →
      ∃ k, k < env.budget timeout ∧ env.displayedAt sel index timeout k = some e ∧
        env.clickableAt e k = true) ∧
    (∀ env sel value index timeout e v,
      Event.setValuePrim e v ∈ (fill env sel value index timeout).1 →
      ∃ css, env.byCss css = .ok e) ∧
    (∀ env sel index timeout e,
      Event.moveToPrim e ∈ (mouseOverElement env sel index timeout).1 →
      env.getDisplayed sel index (some timeout) = .ok e) := by
  have hsession : ∀ env st calls, (runUISession env st calls).1 = st := by
    intro env st calls
    induction calls generalizing st with
    | nil => rfl
    | cons c cs ih =>
      have h1 : (runUICall env st c).1 = st := by cases c <;> rfl
      calc (runUISession env st (c :: cs)).1
          = (runUISession env (runUICall env st c).1 cs).1 := by
            rcases hc : runUICall env st c with ⟨st1, r⟩
            rcases hs : runUISession env st1 cs with ⟨st2, rs⟩
            simp [runUISession, hc, hs]
        _ = (runUICall env st c).1 := ih (runUICall env st c).1
        _ = st := h1
  refine ⟨hsession, fun env calls => hsession env _ calls, fun _ _ _ _ _ => rfl, ?_, ?_, ?_⟩
  · intro env sel index timeout e hmem
    rcases hf : findClickable env sel index timeout with _ | e'
    · simp [click, hf] at hmem
    · have he : e = e' := by
        rcases hc : env.clickFail e' with _ | err <;> simp [click, hf, hc] at hmem <;>
          exact hmem
      subst he
      exact findClickable_eq_some env sel index timeout e hf
  · intro env sel value index timeout e v hmem
    by_cases hty : (value.typeof == "string" || value.typeof == "number") = true
    · rcases hid : env.getId sel index (some timeout) with er | id
      · simp [fill, hty, hid] at hmem
      · simp only [fill, hty, if_true, hid] at hmem
        generalize hcss : (if strictEqStr ((sel.get "elementProperties").get "metadata")
              "sap.m.TextArea" = true then
            "[id=" ++ sq ++ id ++ sq ++ "] textarea"
          else "[id=" ++ sq ++ id ++ sq ++ "] input") = css at hmem
        rcases hb : env.byCss css with er | el
        · simp [hb] at hmem
        · rcases hs : env.setValueFail el with _ | err <;>
            · simp [hb, hs] at hmem
              exact ⟨css, hmem.1 ▸ hb⟩
    · simp only [Bool.not_eq_true] at hty
      simp [fill, hty, logExceptionRes] at hmem
  · intro env sel index timeout e hmem
    rcases hd : env.getDisplayed sel index (some timeout) with er | elem
    · simp [mouseOverElement, hd, logExceptionRes] at hmem
    · rcases hm : env.moveToFail elem with _ | err <;>
        · simp [mouseOverElement, hd, hm] at hmem
          rw [hmem]

/-- Witness for C8: in the base environment the clicked element (1) is the
one the polled resolution returned. -/
theorem instance_state_invariant_and_fresh_handles_witness :
    ∃ k, k < baseEnv.budget (.val 30000)
      ∧ baseEnv.displayedAt selW 0 (.val 30000) k = some 1
      ∧ baseEnv.clickableAt 1 k = true :=
  instance_state_invariant_and_fresh_handles.2.2.2.1 baseEnv selW 0 (.val 30000) 1
    (show Event.clickPrim 1 ∈ [Event.clickPrim 1] from List.mem_singleton.mpr rfl)

-- ===== C9 =====

/-- C9: `check` clicks only when the `"selected"` property reads falsy, and
performs no click when it reads truthy (symmetrically for `uncheck`), so on a
checkbox whose `"selected"` property reflects its checked state (modelled by
`checkboxEnv`/`afterCheckboxRun`: a click toggles it) the operations are
idempotent — the second consecutive `check` (resp. `uncheck`) performs no
click. -/
theorem check_uncheck_click_iff_idempotent :
    (∀ env sel index timeout v,
      env.getPropertyValue sel "selected" index timeout = .ok v → v.truthy = true →
      (check env sel index timeout).1 = [.verboseLog "Checkbox already checked."] ∧
      hasClickPrim (check env sel index timeout).1 = false) ∧
    (∀ env sel index timeout v,
      env.getPropertyValue sel "selected" index timeout = .ok v → v.truthy = false →
      (uncheck env sel index timeout).1 = [.verboseLog "Checkbox already unchecked."] ∧
      hasClickPrim (uncheck env sel index timeout).1 = false) ∧
    (∀ s : Bool, hasClickPrim (check (checkboxEnv s) chkSel 0 (.val 30000)).1 = !s) ∧
    (∀ s : Bool, hasClickPrim (uncheck (checkboxEnv s) chkSel 0 (.val 30000)).1 = s) ∧
    (∀ s : Bool,
      hasClickPrim (check (checkboxEnv
          (afterCheckboxRun s (check (checkboxEnv s) chkSel 0 (.val 30000)).1))
        chkSel 0 (.val 30000)).1 = false) ∧
    (∀ s : Bool,
      hasClickPrim (uncheck (checkboxEnv
          (afterCheckboxRun s (uncheck (checkboxEnv s) chkSel 0 (.val 30000)).1))
        chkSel 0 (.val 30000)).1 = false) := by
  refine ⟨?_, ?_, ?_, ?_, ?_, ?_⟩
  · intro env sel index timeout v hv ht
    constructor <;> simp [check, hv, ht, hasClickPrim]
  · intro env sel index timeout v hv ht
    constructor <;> simp [uncheck, hv, ht, hasClickPrim]
  · intro s
    cases s <;> decide
  · intro s
    cases s <;> decide
  · intro s
    cases s <;> decide
  · intro s
    cases s <;> decide

/-- Witness for C9: a checkbox reading `selected = true` is not clicked by
`check`. -/
theorem check_uncheck_click_iff_idempotent_witness :
    hasClickPrim (check (checkboxEnv true) chkSel 0 (.val 30000)).1 = false :=
  (check_uncheck_click_iff_idempotent.1 (checkboxEnv true) chkSel 0 (.val 30000)
    (.boolean true) rfl rfl).2

-- ===== C10 =====

/-- C10: `clearAndFill` performs the clear-then-fill sequence exactly for
values of typeof "number", "string" or "boolean" (booleans accepted) and
otherwise only logs the type error, neither clearing nor filling; `fill`
accepts only "string"/"number" and rejects booleans the same way. -/
theorem clearAndFill_type_gate_vs_fill (env : Env) (sel value : JSX) (index : ℕ)
    (timeout : JSNum) :
    ((value.typeof == "number" || value.typeof == "string"
        || value.typeof == "boolean") = true →
      ∀ tr, clear env sel index timeout = (tr, .ok ()) →
        clearAndFill env sel value index timeout = (tr ++ [.fillActive value], .ok ())) ∧
    ((value.typeof == "number" || value.typeof == "string"
        || value.typeof == "boolean") = false →
      clearAndFill env sel value index timeout
        = ([.logException clearFillTypeErrMsg], .error clearFillTypeErrMsg)) ∧
    (∀ b : Bool, clearAndFill env sel (.boolean b) index timeout
        = (match clear env sel index timeout with
           | (tr, .error e) => (tr, .error e)
           | (tr, .ok ()) => (tr ++ [.fillActive (.boolean b)], .ok ()))) ∧
    (∀ b : Bool, fill env sel (.boolean b) index timeout
        = ([.logException fillTypeErrMsg], .error fillTypeErrMsg)) ∧
    ((value.typeof == "string" || value.typeof == "number") = false →
      fill env sel value index timeout
        = ([.logException fillTypeErrMsg], .error fillTypeErrMsg)) := by
  refine ⟨?_, ?_, fun b => rfl, fun b => rfl, ?_⟩
  · intro hty tr hclear
    simp only [clearAndFill, hty, if_true, hclear]
  · intro hty
    simp only [clearAndFill, hty, Bool.false_eq_true, if_false]
    rfl
  · intro hty
    simp only [fill, hty, Bool.false_eq_true, if_false]
    rfl

/-- Witness for C10: a boolean value passes `clearAndFill`'s type gate (the
field is cleared and then filled with `true`) while a `null` value is
rejected with the type error. -/
theorem clearAndFill_type_gate_vs_fill_witness :
    clearAndFill baseEnv selW (.boolean true) 0 (.val 30000)
      = ((clear baseEnv selW 0 (.val 30000)).1 ++ [.fillActive (.boolean true)], .ok ()) ∧
    clearAndFill baseEnv selW .nul 0 (.val 30000)
      = ([.logException clearFillTypeErrMsg], .error clearFillTypeErrMsg) :=
  ⟨(clearAndFill_type_gate_vs_fill baseEnv selW (.boolean true) 0 (.val 30000)).1 rfl
      (clear baseEnv selW 0 (.val 30000)).1 rfl,
   (clearAndFill_type_gate_vs_fill baseEnv selW .nul 0 (.val 30000)).2.1 rfl⟩

end Qmate
